import Mathlib

/-!
# libbluray BD-J bridge (`src/libbluray/bdj/bdj.c`)

A shallow embedding of the bridge that loads a Java VM, opens a BD-J session,
starts and stops the hosted program, relays playback events and closes the
session.

The C code talks to the outside world (the process environment, the dynamic
loader, the filesystem, the JNI invocation interface, the hosted program).
Every such call is written down in a trace of `Effect`s, and the answer the
outside world gives is read from an `Oracle`.  The program state that the C
code itself owns is kept in a `World`: the heap blocks holding `BDJAVA`
records, the function-static `classpath` of `_find_libbluray_jar` and the
pending-exception flag of the calling thread's `JNIEnv`.

Conventions
* pointers and handles are natural numbers, `0` is `NULL`;
* a C string the code reads at once is a `String` value; a `const char *` the
  code keeps across calls (the static `classpath`) is a pointer `CStr`, either
  to a string literal of the program or to an address in the environment
  block, whose text is what the outside world holds there when it is read;
  a pointer that may be `NULL` is an `Option`; the `malloc`/`free` of string
  temporaries (`str_printf` results, the `JavaVMOption` array) is not part of
  the trace;
* `BD_DEBUG` diagnostics are not part of the trace;
* the `JNIEnv *` of the calling thread is not carried as a value: calls made
  through it are recorded without it, and its pending-exception flag is the
  field `pending` of the world;
* a local variable read before it was ever assigned holds a value the code
  does not control; that value is an answer of the oracle;
* an operation whose behaviour is undefined and which stops a real process
  (dereferencing `NULL` or an address that holds no block, indexing a table
  out of range) ends the run with `Res.crash`.
-/

namespace Bdj

/-! ## Compile-time configuration -/

/-- Build configuration: the preprocessor symbols used by `bdj.c` whose values
come from `config.h` and the build system. -/
structure Config where
  /-- Whether `WIN32` is defined. -/
  WIN32 : Bool
  /-- Value of the `JAVA_ARCH` string macro. -/
  JAVA_ARCH : String
  /-- Value of the `BDJ_JARFILE` string macro. -/
  BDJ_JARFILE : String
  /-- Value of the `BDJ_CLASSPATH` string macro. -/
  BDJ_CLASSPATH : String

/-- JNI status code `JNI_OK` of `jni.h`. -/
def JNI_OK : Int := 0

/-- JNI boolean `JNI_TRUE` of `jni.h`. -/
def JNI_TRUE : Nat := 1

/-- JNI boolean `JNI_FALSE` of `jni.h`. -/
def JNI_FALSE : Nat := 0

/-- Modelled from the spec: the status macro `BDJ_SUCCESS` is declared in a
header that is not part of the sources at hand; the spec gives `start` and
`stop` two distinct outcomes, `Success | Error`. -/
def BDJ_SUCCESS : Int := 1

/-- Modelled from the spec: the status macro `BDJ_ERROR` is declared in a
header that is not part of the sources at hand; the spec gives `start` and
`stop` two distinct outcomes, `Success | Error`. -/
def BDJ_ERROR : Int := 0

/-! ## Data model -/

/-- The session record `BDJAVA` as `bdj_open` fills it. -/
structure BDJAVA where
  bd : Nat
  reg : Nat
  index : Nat
  path : String
  h_libjvm : Nat
  jvm : Nat
  osd_cb : Nat
  buf : Nat
deriving DecidableEq, Repr

/-- The record `calloc` hands out: every field zero. -/
def BDJAVA.zero : BDJAVA :=
  { bd := 0, reg := 0, index := 0, path := "", h_libjvm := 0, jvm := 0, osd_cb := 0, buf := 0 }

/-- The part of `BDID_DATA` that `_bdj_init` reads. -/
structure BDID_DATA where
  disc_id : String
deriving DecidableEq, Repr

/-- An argument handed to a hosted static method. -/
inductive JArg where
  /-- A value of C type `jint`. -/
  | jint (v : Int)
  /-- A value of C type `unsigned`, passed through the variadic call as it is. -/
  | uint (v : Nat)
  /-- A value of C type `jlong`. -/
  | jlong (v : Int)
  /-- A `jstring` made by `NewStringUTF` from the given text. -/
  | jstring (s : String)
deriving DecidableEq, Repr

/-- One call from the bridge to the outside world. -/
inductive Effect where
  | getenv (name : String)
  | dl_dlopen (path : String)
  | dl_dlsym (h : Nat) (symbol : String)
  | dl_dlclose (h : Nat)
  | stat (path : String)
  /-- The `calloc` of the session record, with the address it returned. -/
  | calloc (p : Nat)
  /-- The `free` of the session record at `p`. -/
  | free (p : Nat)
  /-- A read of the record at `p` after that block was released. -/
  | use_after_free (p : Nat)
  /-- The call through `JNI_CreateJavaVM_fp`, with `args.options` and
  `args.ignoreUnrecognized`. -/
  | JNI_CreateJavaVM (fp : Nat) (options : List String) (ignoreUnrecognized : Bool)
  | GetEnv (jvm : Nat)
  | AttachCurrentThread (jvm : Nat)
  | DetachCurrentThread (jvm : Nat)
  | DestroyJavaVM (jvm : Nat)
  | bdj_register_native_methods
  | bdj_get_method (class_name method_name method_sig : String)
  | bdid_parse (path : String)
  | bdid_free
  | NewStringUTF (s : String)
  /-- Any of `CallStaticVoidMethod`, `CallStaticBooleanMethod` on the method
  resolved by the `bdj_get_method` just before. -/
  | CallStaticMethod (class_name method_name method_sig : String) (args : List JArg)
  | ExceptionOccurred
  | ExceptionDescribe
  | ExceptionClear
  | DeleteLocalRef
deriving DecidableEq, Repr

/-- A `const char *` the code keeps: where it points, not the text there. -/
inductive CStr where
  /-- A pointer to a string literal of the program; its text never changes. -/
  | literal (text : String)
  /-- A pointer to the address `addr` in the environment block, as `getenv`
  returns it; the text there belongs to the outside world. -/
  | environ (addr : Nat)
deriving DecidableEq, Repr

/-- A heap block holding a session record.  `free` does not wipe the block:
a released block keeps its bytes, and `live` records that it was released. -/
structure Block where
  data : BDJAVA
  live : Bool
deriving DecidableEq, Repr

/-- The state the bridge owns or shares with the VM. -/
structure World where
  /-- Heap blocks holding session records, by address. -/
  heap : Nat → Option Block
  /-- The variable `static const char *classpath` of `_find_libbluray_jar`. -/
  classpath : Option CStr
  /-- Whether an exception is pending in the calling thread's `JNIEnv`. -/
  pending : Bool
  /-- Every call made to the outside world so far, oldest first. -/
  trace : List Effect

/-- What the outside world answers during one call of a public entry point.
Within one such call the bridge asks each question at most once (every
`getenv`, `dl_dlopen`, `stat`, `bdj_get_method` and hosted call has its own
argument, `GetEnv` and `JNI_CreateJavaVM` are called once), so one answer per
question describes any outside world; two calls may be given two oracles. -/
structure Oracle where
  /-- Pointer `getenv` returns for a variable, as an address in the
  environment block; `none` (for `NULL`) when the variable is not set. -/
  getenv_addr : String → Option Nat
  /-- Text the environment block holds at an address during this call. -/
  text_at : Nat → String
  /-- Handle `dl_dlopen` returns for a path, `0` when the load fails. -/
  dl_dlopen : String → Nat
  /-- Address `dl_dlsym` returns for a symbol, `0` when it is missing. -/
  dl_dlsym : Nat → String → Nat
  /-- Return value of `stat` on a path (`0` when the path exists). -/
  stat : String → Int
  /-- Address `calloc` returns, `0` when it fails. -/
  calloc : Nat
  /-- Status `JNI_CreateJavaVM` returns. -/
  create_result : Int
  /-- VM handle `JNI_CreateJavaVM` leaves in `bdjava->jvm`. -/
  create_jvm : Nat
  /-- Environment handle `JNI_CreateJavaVM` leaves in `env`. -/
  create_env : Nat
  /-- Status `GetEnv` returns: `JNI_OK` when the calling thread is attached. -/
  GetEnv : Int
  /-- Return value of `bdj_get_method`: non-zero when class and method resolve. -/
  bdj_get_method : String → String → String → Int
  /-- Result of `bdid_parse` on a path, `none` for `NULL`. -/
  bdid_parse : String → Option BDID_DATA
  /-- The `jboolean` the hosted static method of that name returns. -/
  CallStaticBooleanMethod : String → Nat
  /-- Whether the hosted static method of that name leaves an exception pending. -/
  throws : String → Bool
  /-- The indeterminate value a local `int attach;` declared without an
  initialiser holds when it is first read. -/
  uninit_attach : Int

/-- Value of an environment variable, `none` when it is not set: the text
behind the pointer `getenv` returns. -/
def Oracle.getenv (o : Oracle) (name : String) : Option String :=
  (o.getenv_addr name).map o.text_at

/-- Text behind a pointer when it is read during a call. -/
def text_of (o : Oracle) : CStr → String
  | CStr.literal text => text
  | CStr.environ addr => o.text_at addr

/-- Outcome of running a piece of the bridge from a given world. -/
inductive Res (α : Type) where
  /-- The code returned `a`, leaving the world `w`. -/
  | ret (a : α) (w : World)
  /-- The process stopped on an invalid memory access in world `w`. -/
  | crash (w : World)

/-- A computation of the bridge: from a world to an outcome. -/
def M (α : Type) : Type := World → Res α

/-- Return a value without touching the world. -/
def M.pure {α : Type} (a : α) : M α := fun w => Res.ret a w

/-- Sequence two computations; a crash ends the run. -/
def M.bind {α β : Type} (m : M α) (f : α → M β) : M β := fun w =>
  match m w with
  | Res.ret a w1 => f a w1
  | Res.crash w1 => Res.crash w1

instance : Monad M where
  pure := M.pure
  bind := M.bind

/-- The world an outcome ends in. -/
def Res.world {α : Type} : Res α → World
  | Res.ret _ w => w
  | Res.crash w => w

/-- The value an outcome returns, if the run did return. -/
def Res.value {α : Type} : Res α → Option α
  | Res.ret a _ => some a
  | Res.crash _ => none

/-! ## Primitive steps -/

/-- Record one call to the outside world. -/
def emit (e : Effect) : M Unit := fun w =>
  Res.ret () { w with trace := w.trace ++ [e] }

/-- An invalid memory access: the process stops. -/
def crash {α : Type} : M α := fun w => Res.crash w

/-- Read the record behind the pointer `p` (`p->field`). -/
def load (p : Nat) : M BDJAVA := fun w =>
  if p = 0 then Res.crash w
  else match w.heap p with
    | none => Res.crash w
    | some b =>
      if b.live then Res.ret b.data w
      else Res.ret b.data { w with trace := w.trace ++ [Effect.use_after_free p] }

/-- Write fields of the record behind the pointer `p` (`p->field = v`). -/
def store (p : Nat) (f : BDJAVA → BDJAVA) : M Unit := fun w =>
  if p = 0 then Res.crash w
  else match w.heap p with
    | none => Res.crash w
    | some b =>
      Res.ret ()
        { w with
          heap := fun a => if a = p then some { b with data := f b.data } else w.heap a
          trace := if b.live then w.trace else w.trace ++ [Effect.use_after_free p] }

/-- The call `calloc(1, sizeof(BDJAVA))`. -/
def calloc (o : Oracle) : M Nat := fun w =>
  if o.calloc = 0 then Res.ret 0 { w with trace := w.trace ++ [Effect.calloc 0] }
  else Res.ret o.calloc
    { w with
      heap := fun a => if a = o.calloc then some { data := BDJAVA.zero, live := true } else w.heap a
      trace := w.trace ++ [Effect.calloc o.calloc] }

/-- The call `free(p)` on a session record, `p` not `NULL`. -/
def free (p : Nat) : M Unit := fun w =>
  Res.ret ()
    { w with
      heap := fun a =>
        if a = p then (w.heap p).map (fun b => { b with live := false }) else w.heap a
      trace := w.trace ++ [Effect.free p] }

/-- Modelled from the spec: the macro `X_FREE` comes from `util/macro.h`, which
is not part of the sources at hand.  The spec has `close` "finally free the
session record"; the macro frees the block and sets the local pointer
variable it was given to `NULL`, which returns the new value of that local. -/
def X_FREE (p : Nat) : M Nat := do
  free p
  pure 0

/-- Read the function-static variable `classpath`. -/
def get_classpath : M (Option CStr) := fun w => Res.ret w.classpath w

/-- Assign the function-static variable `classpath`. -/
def set_classpath (v : Option CStr) : M Unit := fun w =>
  Res.ret () { w with classpath := v }

/-- The call `getenv(name)` whose result is read at once: the text of the
variable. -/
def getenv (o : Oracle) (name : String) : M (Option String) := do
  emit (Effect.getenv name)
  pure (o.getenv name)

/-- The call `getenv(name)` whose result is kept: the pointer itself. -/
def getenv_ptr (o : Oracle) (name : String) : M (Option CStr) := do
  emit (Effect.getenv name)
  pure ((o.getenv_addr name).map CStr.environ)

/-- The call `dl_dlopen(path, NULL)`. -/
def dl_dlopen (o : Oracle) (path : String) : M Nat := do
  emit (Effect.dl_dlopen path)
  pure (o.dl_dlopen path)

/-- The call `dl_dlsym(h, symbol)`. -/
def dl_dlsym (o : Oracle) (h : Nat) (symbol : String) : M Nat := do
  emit (Effect.dl_dlsym h symbol)
  pure (o.dl_dlsym h symbol)

/-- The call `stat(path, &sb)`. -/
def stat (o : Oracle) (path : String) : M Int := do
  emit (Effect.stat path)
  pure (o.stat path)

/-- The call `bdj_get_method(env, &cls, &id, class_name, method_name, method_sig)`. -/
def bdj_get_method (o : Oracle) (class_name method_name method_sig : String) : M Int := do
  emit (Effect.bdj_get_method class_name method_name method_sig)
  pure (o.bdj_get_method class_name method_name method_sig)

/-- A call of a hosted static method: the call is recorded and the method may
leave an exception pending. -/
def call_static (o : Oracle) (class_name method_name method_sig : String)
    (args : List JArg) : M Unit := fun w =>
  Res.ret ()
    { w with
      pending := w.pending || o.throws method_name
      trace := w.trace ++ [Effect.CallStaticMethod class_name method_name method_sig args] }

/-- The block every call site repeats after a hosted call:
`if (ExceptionOccurred(env)) { ExceptionDescribe(env); ExceptionClear(env); }`. -/
def exception_check : M Unit := fun w =>
  if w.pending then
    Res.ret ()
      { w with
        pending := false
        trace := w.trace ++
          [Effect.ExceptionOccurred, Effect.ExceptionDescribe, Effect.ExceptionClear] }
  else Res.ret () { w with trace := w.trace ++ [Effect.ExceptionOccurred] }

/-- The block every public entry point starts its VM work with:
`if (GetEnv(jvm, &env, JNI_VERSION_1_4) != JNI_OK) { AttachCurrentThread(jvm, &env, NULL); attach = 1; }`.
The argument `attach` is the value the local variable holds before the block,
the result is the value it holds after. -/
def get_env (o : Oracle) (jvm : Nat) (attach : Int) : M Int := do
  emit (Effect.GetEnv jvm)
  if o.GetEnv ≠ JNI_OK then do
    emit (Effect.AttachCurrentThread jvm)
    pure 1
  else
    pure attach

/-- Text `printf` puts for a `%s` argument (`(null)` for a `NULL` pointer),
given the text behind the pointer. -/
def fmt_s : Option String → String
  | some s => s
  | none => "(null)"

/-! ## `_load_jvm` -/

/-- The `str_printf` of `_load_jvm`: `"%s/jre/bin/server/jvm"` under `WIN32`,
`"%s/jre/lib/%s/server/libjvm"` with `JAVA_ARCH` otherwise. -/
def jvm_path (cfg : Config) (java_home : String) : String :=
  if cfg.WIN32 then java_home ++ "/jre/bin/server/jvm"
  else java_home ++ "/jre/lib/" ++ cfg.JAVA_ARCH ++ "/server/libjvm"

/-- The function `_load_jvm`. -/
def _load_jvm (cfg : Config) (o : Oracle) : M Nat := do
  let java_home ← getenv o "JAVA_HOME"
  match java_home with
  | none =>
    let h ← dl_dlopen o "libjvm"
    if h ≠ 0 then
      pure h
    else
      dl_dlopen o (jvm_path cfg "/usr/lib/jvm/default-java/")
  | some r =>
    dl_dlopen o (jvm_path cfg r)

/-! ## `_find_libbluray_jar` -/

/-- The table `jar_paths` of `_find_libbluray_jar`. -/
def jar_paths (cfg : Config) : List String :=
  if cfg.WIN32 then ["" ++ cfg.BDJ_JARFILE]
  else ["/usr/lib/libbluray/" ++ cfg.BDJ_JARFILE, "/usr/share/libbluray/" ++ cfg.BDJ_JARFILE]

/-- The `for` loop of `_find_libbluray_jar` over the entries still to check:
the first entry `stat` accepts is stored in `classpath` and returned. -/
def find_jar_loop (o : Oracle) : List String → M (Option CStr)
  | [] => pure none
  | p :: rest => do
    let r ← stat o p
    if r = 0 then do
      set_classpath (some (CStr.literal p))
      pure (some (CStr.literal p))
    else
      find_jar_loop o rest

/-- The function `_find_libbluray_jar`.  It stores and returns pointers: the
one `getenv` returned, an entry of `jar_paths`, or the literal `BDJ_CLASSPATH`. -/
def _find_libbluray_jar (cfg : Config) (o : Oracle) : M (Option CStr) := do
  let cached ← get_classpath
  if cached = none then do
    let v ← getenv_ptr o "LIBBLURAY_CP"
    set_classpath v
  let classpath ← get_classpath
  match classpath with
  | some c => pure (some c)
  | none =>
    let found ← find_jar_loop o (jar_paths cfg)
    match found with
    | some p => pure (some p)
    | none => do
      set_classpath (some (CStr.literal cfg.BDJ_CLASSPATH))
      pure (some (CStr.literal cfg.BDJ_CLASSPATH))

/-! ## `_bdj_init` -/

/-- The string literal `_bdj_init` passes when `bdid_parse` returns `NULL`. -/
def fallback_disc_id : String := "00000000000000000000000000000000"

/-- The function `_bdj_init`.  The cast `(jlong)(intptr_t) bdjava` keeps the
address as a number; `free(id_path)` releases a string temporary and is not
recorded. -/
def _bdj_init (o : Oracle) (bdjava : Nat) : M Int := do
  emit Effect.bdj_register_native_methods
  let found ← bdj_get_method o "org/videolan/Libbluray" "init" "(JLjava/lang/String;)V"
  if found = 0 then
    pure 0
  else do
    let s ← load bdjava
    let id_path := s.path ++ "/CERTIFICATE/id.bdmv"
    emit (Effect.bdid_parse id_path)
    let id := o.bdid_parse id_path
    let param_bdjava_ptr : Int := Int.ofNat bdjava
    let disc_id := match id with
      | some d => d.disc_id
      | none => fallback_disc_id
    emit (Effect.NewStringUTF disc_id)
    call_static o "org/videolan/Libbluray" "init" "(JLjava/lang/String;)V"
      [JArg.jlong param_bdjava_ptr, JArg.jstring disc_id]
    exception_check
    emit Effect.DeleteLocalRef
    emit Effect.DeleteLocalRef
    emit Effect.bdid_free
    pure 1

/-! ## `bdj_close` -/

/-- The function `bdj_close`.  Its local `attach` has no initialiser.  The
record behind `bdjava` is read once, on the first access; nothing writes it
before the final `X_FREE`. -/
def bdj_close (o : Oracle) (bdjava : Nat) : M Unit :=
  if bdjava = 0 then
    pure ()
  else do
    let s ← load bdjava
    if s.jvm ≠ 0 then do
      let attach ← get_env o s.jvm o.uninit_attach
      let found ← bdj_get_method o "org/videolan/Libbluray" "shutdown" "()V"
      if found ≠ 0 then do
        call_static o "org/videolan/Libbluray" "shutdown" "()V" []
        exception_check
        emit Effect.DeleteLocalRef
      if attach ≠ 0 then
        emit (Effect.DetachCurrentThread s.jvm)
      emit (Effect.DestroyJavaVM s.jvm)
    if s.h_libjvm ≠ 0 then
      emit (Effect.dl_dlclose s.h_libjvm)
    let _ ← X_FREE bdjava
    pure ()

/-! ## `bdj_open` -/

/-- The function `bdj_open`.  The seven field assignments that follow `calloc`
are one `store`; `str_printf` reads the text behind the pointer
`_find_libbluray_jar` returned; `JNI_CreateJavaVM_fp(&bdjava->jvm, &env, &args)`
is the recorded call followed by the `store` of the VM handle it wrote. -/
def bdj_open (cfg : Config) (o : Oracle) (path : String)
    (bd registers index osd_cb buf : Nat) : M Nat := do
  let jvm_lib ← _load_jvm cfg o
  if jvm_lib = 0 then
    pure 0
  else do
    let JNI_CreateJavaVM_fp ← dl_dlsym o jvm_lib "JNI_CreateJavaVM"
    if JNI_CreateJavaVM_fp = 0 then do
      emit (Effect.dl_dlclose jvm_lib)
      pure 0
    else do
      let bdjava ← calloc o
      store bdjava (fun s =>
        { s with bd := bd, reg := registers, index := index, path := path,
                 h_libjvm := jvm_lib, osd_cb := osd_cb, buf := buf })
      let classpath ← _find_libbluray_jar cfg o
      let classpath_opt := "-Xbootclasspath/a:" ++ fmt_s (classpath.map (text_of o))
      let vfs_opt := "-Dbluray.vfs.root=" ++ path
      emit (Effect.JNI_CreateJavaVM JNI_CreateJavaVM_fp [classpath_opt, vfs_opt] false)
      store bdjava (fun s => { s with jvm := o.create_jvm })
      let env := o.create_env
      let result := o.create_result
      if result ≠ JNI_OK ∨ env = 0 then do
        bdj_close o bdjava
        pure 0
      else do
        let ok ← _bdj_init o bdjava
        if ok = 0 then do
          bdj_close o bdjava
          pure 0
        else
          pure bdjava

/-! ## `bdj_start`, `bdj_stop` -/

/-- The cast `(jint)title` of an `unsigned`. -/
def to_jint (v : Nat) : Int :=
  if v % 2 ^ 32 < 2 ^ 31 then Int.ofNat (v % 2 ^ 32) else Int.ofNat (v % 2 ^ 32) - 2 ^ 32

/-- The function `bdj_start`.  Its local `attach` starts at `0`.  The call
`(*bdjava->jvm)->GetEnv` goes through the VM handle, so a null handle stops
the process. -/
def bdj_start (o : Oracle) (bdjava : Nat) (title : Nat) : M Int :=
  if bdjava = 0 then
    pure BDJ_ERROR
  else do
    let s ← load bdjava
    if s.jvm = 0 then
      crash
    else do
      let attach ← get_env o s.jvm 0
      let found ← bdj_get_method o "org/videolan/BDJLoader" "load" "(I)Z"
      let status ←
        if found ≠ 0 then do
          call_static o "org/videolan/BDJLoader" "load" "(I)Z" [JArg.jint (to_jint title)]
          exception_check
          emit Effect.DeleteLocalRef
          pure (o.CallStaticBooleanMethod "load")
        else
          pure JNI_FALSE
      if attach ≠ 0 then
        emit (Effect.DetachCurrentThread s.jvm)
      pure (if status = JNI_TRUE then BDJ_SUCCESS else BDJ_ERROR)

/-- The function `bdj_stop`.  Its local `attach` has no initialiser. -/
def bdj_stop (o : Oracle) (bdjava : Nat) : M Int :=
  if bdjava = 0 then
    pure BDJ_ERROR
  else do
    let s ← load bdjava
    if s.jvm = 0 then
      crash
    else do
      let attach ← get_env o s.jvm o.uninit_attach
      let found ← bdj_get_method o "org/videolan/BDJLoader" "unload" "()Z"
      let status ←
        if found ≠ 0 then do
          call_static o "org/videolan/BDJLoader" "unload" "()Z" []
          exception_check
          emit Effect.DeleteLocalRef
          pure (o.CallStaticBooleanMethod "unload")
        else
          pure JNI_FALSE
      if attach ≠ 0 then
        emit (Effect.DetachCurrentThread s.jvm)
      pure (if status = JNI_TRUE then BDJ_SUCCESS else BDJ_ERROR)

/-! ## `bdj_process_event` -/

/-- The table `ev_name` of `bdj_process_event`. -/
def ev_name : List String :=
  ["NONE", "CHAPTER", "PLAYITEM", "ANGLE", "SUBTITLE", "PIP", "END_OF_PLAYLIST", "PTS", "VK_KEY"]

/-- The function `bdj_process_event`.  Its local `attach` starts at `0`. -/
def bdj_process_event (o : Oracle) (bdjava : Nat) (ev param : Nat) : M Unit :=
  if bdjava = 0 then
    pure ()
  else
    -- BD_DEBUG(..., ev_name[ev], param)
    match ev_name[ev]? with
    | none => crash
    | some _ => do
      let s ← load bdjava
      if s.jvm = 0 then
        crash
      else do
        let attach ← get_env o s.jvm 0
        let found ← bdj_get_method o "org/videolan/Libbluray" "processEvent" "(II)V"
        if found ≠ 0 then do
          call_static o "org/videolan/Libbluray" "processEvent" "(II)V"
            [JArg.uint ev, JArg.uint param]
          exception_check
          emit Effect.DeleteLocalRef
        if attach ≠ 0 then
          emit (Effect.DetachCurrentThread s.jvm)

/-! ## Events a call appends -/

/-- The calls a run appended to the trace of the world `w` it started from. -/
def new_events {α : Type} (w : World) (r : Res α) : List Effect :=
  r.world.trace.drop w.trace.length

/-- The teardown steps in a list of effects: hosted-method calls,
`DestroyJavaVM`, `dl_dlclose` and the `free` of a session record. -/
def teardown_steps (es : List Effect) : List Effect :=
  es.filter (fun e => match e with
    | Effect.CallStaticMethod _ _ _ _ => true
    | Effect.DestroyJavaVM _ => true
    | Effect.dl_dlclose _ => true
    | Effect.free _ => true
    | _ => false)

/-- The calls into the VM in a list of effects: invocation-interface calls,
method lookups, hosted-method calls, exception and reference handling. -/
def jvm_calls (es : List Effect) : List Effect :=
  es.filter (fun e => match e with
    | Effect.GetEnv _ => true
    | Effect.AttachCurrentThread _ => true
    | Effect.DetachCurrentThread _ => true
    | Effect.DestroyJavaVM _ => true
    | Effect.bdj_get_method _ _ _ => true
    | Effect.CallStaticMethod _ _ _ _ => true
    | Effect.ExceptionOccurred => true
    | Effect.ExceptionDescribe => true
    | Effect.ExceptionClear => true
    | Effect.DeleteLocalRef => true
    | Effect.NewStringUTF _ => true
    | Effect.bdj_register_native_methods => true
    | _ => false)

/-- The hosted-method calls in a list of effects. -/
def hosted_calls (es : List Effect) : List Effect :=
  es.filter (fun e => match e with
    | Effect.CallStaticMethod _ _ _ _ => true
    | _ => false)

/-- The `stat` calls the loop of `_find_libbluray_jar` makes over the entries
given: one per entry, up to and including the first one accepted. -/
def stat_events (o : Oracle) : List String → List Effect
  | [] => []
  | p :: rest => Effect.stat p :: (if o.stat p = 0 then [] else stat_events o rest)

/-- The pointer `_find_libbluray_jar` settles on, given what `classpath` holds
on entry: the cached pointer, else the one `getenv` returns for
`LIBBLURAY_CP`, else the first candidate `stat` accepts, else `BDJ_CLASSPATH`. -/
def resolved_ptr (cfg : Config) (o : Oracle) (cached : Option CStr) : CStr :=
  match cached with
  | some c => c
  | none =>
    match o.getenv_addr "LIBBLURAY_CP" with
    | some a => CStr.environ a
    | none =>
      match (jar_paths cfg).find? (fun p => decide (o.stat p = 0)) with
      | some p => CStr.literal p
      | none => CStr.literal cfg.BDJ_CLASSPATH

/-- The text behind the pointer `_find_libbluray_jar` settles on, read during
the same call. -/
def resolved_jar (cfg : Config) (o : Oracle) (cached : Option CStr) : String :=
  text_of o (resolved_ptr cfg o cached)

/-- The text behind the pointer a run of `_find_libbluray_jar` returned, read
under the outside world `o`; `none` for a `NULL` result or a crash. -/
def returned_text (o : Oracle) : Res (Option CStr) → Option String
  | Res.ret (some c) _ => some (text_of o c)
  | Res.ret none _ => none
  | Res.crash _ => none

/-- The calls `_find_libbluray_jar` makes, given what `classpath` holds on entry. -/
def resolve_events (cfg : Config) (o : Oracle) (cached : Option CStr) : List Effect :=
  match cached with
  | some _ => []
  | none =>
    match o.getenv "LIBBLURAY_CP" with
    | some _ => [Effect.getenv "LIBBLURAY_CP"]
    | none => Effect.getenv "LIBBLURAY_CP" :: stat_events o (jar_paths cfg)

/-- The calls of the block that obtains the thread's environment. -/
def attach_events (o : Oracle) (jvm : Nat) : List Effect :=
  Effect.GetEnv jvm :: (if o.GetEnv ≠ JNI_OK then [Effect.AttachCurrentThread jvm] else [])

/-- The calls of a lookup of a static method followed, when it resolves, by
the call, the exception check and the release of the class reference;
`pending` tells whether an exception was pending before. -/
def invoke_events (o : Oracle) (pending : Bool) (c n sg : String) (args : List JArg) :
    List Effect :=
  Effect.bdj_get_method c n sg ::
    (if o.bdj_get_method c n sg ≠ 0 then
      [Effect.CallStaticMethod c n sg args, Effect.ExceptionOccurred] ++
        (if pending || o.throws n then [Effect.ExceptionDescribe, Effect.ExceptionClear]
          else []) ++
        [Effect.DeleteLocalRef]
     else [])

/-- The calls of the closing `if (attach) DetachCurrentThread(jvm)`, where
`attach0` is what the local `attach` held before `GetEnv`. -/
def detach_events (o : Oracle) (jvm : Nat) (attach0 : Int) : List Effect :=
  if (if o.GetEnv ≠ JNI_OK then 1 else attach0) ≠ 0 then [Effect.DetachCurrentThread jvm]
  else []

/-- The calls `bdj_close` makes on a record `s` at address `p`. -/
def close_events (o : Oracle) (s : BDJAVA) (pending : Bool) (p : Nat) : List Effect :=
  (if s.jvm ≠ 0 then
    attach_events o s.jvm ++
      invoke_events o pending "org/videolan/Libbluray" "shutdown" "()V" [] ++
      detach_events o s.jvm o.uninit_attach ++ [Effect.DestroyJavaVM s.jvm]
   else []) ++
  (if s.h_libjvm ≠ 0 then [Effect.dl_dlclose s.h_libjvm] else []) ++
  [Effect.free p]

/-- The world `bdj_close` leaves, run on a block at `p` that holds `s`. -/
def close_world (o : Oracle) (p : Nat) (s : BDJAVA) (live : Bool) (w : World) : World :=
  { heap := fun a => if a = p then some { data := s, live := false } else w.heap a
    classpath := w.classpath
    pending :=
      if s.jvm ≠ 0 ∧ o.bdj_get_method "org/videolan/Libbluray" "shutdown" "()V" ≠ 0 then false
      else w.pending
    trace := w.trace ++ (if live then [] else [Effect.use_after_free p]) ++
      close_events o s w.pending p }

/-- The world a public entry point leaves after its VM work on the method
`c.n` of signature `sg`: attach block, lookup and call, detach. -/
def invoke_world (o : Oracle) (jvm : Nat) (attach0 : Int) (c n sg : String)
    (args : List JArg) (w : World) : World :=
  { w with
    pending := if o.bdj_get_method c n sg ≠ 0 then false else w.pending
    trace := w.trace ++
      (attach_events o jvm ++ invoke_events o w.pending c n sg args ++
        detach_events o jvm attach0) }

/-- The calls that concern the thread's attachment in a list of effects. -/
def thread_calls (es : List Effect) : List Effect :=
  es.filter (fun e => match e with
    | Effect.GetEnv _ => true
    | Effect.AttachCurrentThread _ => true
    | Effect.DetachCurrentThread _ => true
    | _ => false)

/-- The handle `_load_jvm` returns. -/
def load_jvm_handle (cfg : Config) (o : Oracle) : Nat :=
  match o.getenv "JAVA_HOME" with
  | none =>
    if o.dl_dlopen "libjvm" ≠ 0 then o.dl_dlopen "libjvm"
    else o.dl_dlopen (jvm_path cfg "/usr/lib/jvm/default-java/")
  | some r => o.dl_dlopen (jvm_path cfg r)

/-- The calls `_load_jvm` makes. -/
def load_jvm_events (cfg : Config) (o : Oracle) : List Effect :=
  match o.getenv "JAVA_HOME" with
  | none =>
    if o.dl_dlopen "libjvm" ≠ 0 then [Effect.getenv "JAVA_HOME", Effect.dl_dlopen "libjvm"]
    else [Effect.getenv "JAVA_HOME", Effect.dl_dlopen "libjvm",
          Effect.dl_dlopen (jvm_path cfg "/usr/lib/jvm/default-java/")]
  | some r => [Effect.getenv "JAVA_HOME", Effect.dl_dlopen (jvm_path cfg r)]

/-- The disc identifier `_bdj_init` hands to `init` for a session rooted at `path`. -/
def init_disc_id (o : Oracle) (path : String) : String :=
  match o.bdid_parse (path ++ "/CERTIFICATE/id.bdmv") with
  | some d => d.disc_id
  | none => fallback_disc_id

/-- The calls `_bdj_init` makes on a record `s` at address `p`. -/
def init_events (o : Oracle) (s : BDJAVA) (p : Nat) (pending : Bool) : List Effect :=
  [Effect.bdj_register_native_methods,
   Effect.bdj_get_method "org/videolan/Libbluray" "init" "(JLjava/lang/String;)V"] ++
  (if o.bdj_get_method "org/videolan/Libbluray" "init" "(JLjava/lang/String;)V" ≠ 0 then
    [Effect.bdid_parse (s.path ++ "/CERTIFICATE/id.bdmv"),
     Effect.NewStringUTF (init_disc_id o s.path),
     Effect.CallStaticMethod "org/videolan/Libbluray" "init" "(JLjava/lang/String;)V"
       [JArg.jlong (Int.ofNat p), JArg.jstring (init_disc_id o s.path)],
     Effect.ExceptionOccurred] ++
    (if pending || o.throws "init" then [Effect.ExceptionDescribe, Effect.ExceptionClear]
      else []) ++
    [Effect.DeleteLocalRef, Effect.DeleteLocalRef, Effect.bdid_free]
   else [])

/-- The world `_bdj_init` leaves, run on a live record `s` at address `p`. -/
def init_world (o : Oracle) (p : Nat) (s : BDJAVA) (w : World) : World :=
  { w with
    pending :=
      if o.bdj_get_method "org/videolan/Libbluray" "init" "(JLjava/lang/String;)V" ≠ 0
        then false else w.pending
    trace := w.trace ++ init_events o s p w.pending }

/-- The record `bdj_open` has built once `JNI_CreateJavaVM` has returned. -/
def opened_record (cfg : Config) (o : Oracle) (path : String)
    (bd registers index osd_cb buf : Nat) : BDJAVA :=
  { bd := bd, reg := registers, index := index, path := path,
    h_libjvm := load_jvm_handle cfg o, jvm := o.create_jvm, osd_cb := osd_cb, buf := buf }

/-- The calls `bdj_open` makes up to and including `JNI_CreateJavaVM`. -/
def create_events (cfg : Config) (o : Oracle) (path : String) (cached : Option CStr) :
    List Effect :=
  load_jvm_events cfg o ++
    [Effect.dl_dlsym (load_jvm_handle cfg o) "JNI_CreateJavaVM", Effect.calloc o.calloc] ++
    resolve_events cfg o cached ++
    [Effect.JNI_CreateJavaVM (o.dl_dlsym (load_jvm_handle cfg o) "JNI_CreateJavaVM")
      ["-Xbootclasspath/a:" ++ resolved_jar cfg o cached, "-Dbluray.vfs.root=" ++ path] false]

/-- The world in `bdj_open` once `JNI_CreateJavaVM` has returned. -/
def created_world (cfg : Config) (o : Oracle) (path : String)
    (bd registers index osd_cb buf : Nat) (w : World) : World :=
  { heap := fun a =>
      if a = o.calloc then
        some { data := opened_record cfg o path bd registers index osd_cb buf, live := true }
      else w.heap a
    classpath := some (resolved_ptr cfg o w.classpath)
    pending := w.pending
    trace := w.trace ++ create_events cfg o path w.classpath }

/-- The resource steps in a list of effects: symbol lookup, allocation of the
session record, VM creation and destruction, library close, `free` of the
session record. -/
def resource_steps (es : List Effect) : List Effect :=
  es.filter (fun e => match e with
    | Effect.dl_dlsym _ _ => true
    | Effect.calloc _ => true
    | Effect.JNI_CreateJavaVM _ _ _ => true
    | Effect.DestroyJavaVM _ => true
    | Effect.dl_dlclose _ => true
    | Effect.free _ => true
    | _ => false)

/-- The `bdid_parse` calls in a list of effects. -/
def parse_calls (es : List Effect) : List Effect :=
  es.filter (fun e => match e with
    | Effect.bdid_parse _ => true
    | _ => false)

/-! ## Sample inputs -/

/-- A POSIX build configuration. -/
def sample_config : Config :=
  { WIN32 := false, JAVA_ARCH := "amd64", BDJ_JARFILE := "libbluray.jar",
    BDJ_CLASSPATH := "/usr/share/java/libbluray.jar" }

/-- A world with an empty heap, nothing cached, nothing pending, nothing done. -/
def empty_world : World :=
  { heap := fun _ => none, classpath := none, pending := false, trace := [] }

/-- An outside world with no variable set, no library, no file, no VM. -/
def bare_oracle : Oracle :=
  { getenv_addr := fun _ => none
    text_at := fun _ => ""
    dl_dlopen := fun _ => 0
    dl_dlsym := fun _ _ => 0
    stat := fun _ => -1
    calloc := 0
    create_result := -1
    create_jvm := 0
    create_env := 0
    GetEnv := 0
    bdj_get_method := fun _ _ _ => 0
    bdid_parse := fun _ => none
    CallStaticBooleanMethod := fun _ => 0
    throws := fun _ => false
    uninit_attach := 0 }

/-- A fully opened session record: VM handle `7`, library handle `9`. -/
def sample_session : BDJAVA :=
  { bd := 1, reg := 2, index := 3, path := "/media/disc", h_libjvm := 9, jvm := 7,
    osd_cb := 4, buf := 5 }

/-- A world whose heap holds `sample_session`, live, at address `4096`. -/
def session_world : World :=
  { heap := fun a => if a = 4096 then some { data := sample_session, live := true } else none
    classpath := none, pending := false, trace := [] }

/-- The world `session_world` after one `bdj_close` of the session at `4096`. -/
def closed_once : World :=
  (bdj_close bare_oracle 4096 session_world).world

/-- An outside world where `JAVA_HOME` is `/opt/java` and the library loads
from under it. -/
def java_home_oracle : Oracle :=
  { bare_oracle with
    getenv_addr := fun n => if n = "JAVA_HOME" then some 8192 else none
    text_at := fun a => if a = 8192 then "/opt/java" else ""
    dl_dlopen := fun n => if n = "/opt/java/jre/lib/amd64/server/libjvm" then 9 else 0 }

/-- An outside world where `LIBBLURAY_CP` is set: `getenv` returns the address
`12288`, where the environment block holds `/tmp/a.jar`. -/
def override_oracle : Oracle :=
  { bare_oracle with
    getenv_addr := fun n => if n = "LIBBLURAY_CP" then some 12288 else none
    text_at := fun a => if a = 12288 then "/tmp/a.jar" else "" }

/-- The outside world of `override_oracle` after the string at address `12288`
was overwritten in place: the variable is still set, `getenv` still returns
that address, and the text there is now `/tmp/b.jar`. -/
def rewritten_oracle : Oracle :=
  { override_oracle with
    text_at := fun a => if a = 12288 then "/tmp/b.jar" else "" }

/-- The world the first call of `_find_libbluray_jar` leaves under
`override_oracle`. -/
def override_cached : World :=
  (_find_libbluray_jar sample_config override_oracle empty_world).world

/-- An outside world where the calling thread is attached (`GetEnv` returns
`JNI_OK`) and the stack slot of an uninitialised `attach` holds `1`. -/
def attached_oracle : Oracle :=
  { bare_oracle with uninit_attach := 1 }

/-- An outside world where every entry point resolves, every hosted boolean
method returns `JNI_TRUE`, and every hosted call leaves an exception pending. -/
def fault_oracle : Oracle :=
  { bare_oracle with
    bdj_get_method := fun _ _ _ => 1
    CallStaticBooleanMethod := fun _ => 1
    throws := fun _ => true }

/-- An outside world where the library loads from under `JAVA_HOME`, the
symbol is found, the VM is created, and no entry point resolves. -/
def no_init_oracle : Oracle :=
  { java_home_oracle with
    dl_dlsym := fun _ _ => 11
    calloc := 4096
    create_result := 0
    create_jvm := 7
    create_env := 13 }

/-- An outside world where the library loads from under `JAVA_HOME`, the
symbol is found, the VM is created, every entry point resolves, the disc has
the identifier of the spec's scenario and `init` faults. -/
def ready_oracle : Oracle :=
  { no_init_oracle with
    bdj_get_method := fun _ _ _ => 1
    bdid_parse := fun n =>
      if n = "/media/disc/CERTIFICATE/id.bdmv" then
        some { disc_id := "ABCDEF0123456789ABCDEF0123456789" }
      else none
    throws := fun _ => true }

/-! # Theorems -/

/-! ## Stepping rules -/

@[simp] theorem pure_run {α : Type} (a : α) (w : World) :
    (pure a : M α) w = Res.ret a w := rfl

@[simp] theorem bind_run {α β : Type} (m : M α) (f : α → M β) (w : World) :
    (m >>= f) w = M.bind m f w := rfl

@[simp] theorem M_bind_ret {α β : Type} (m : M α) (f : α → M β) (w w1 : World) (a : α)
    (h : m w = Res.ret a w1) : M.bind m f w = f a w1 := by
  simp [M.bind, h]

@[simp] theorem emit_run (e : Effect) (w : World) :
    emit e w = Res.ret () { w with trace := w.trace ++ [e] } := rfl

@[simp] theorem getenv_run (o : Oracle) (n : String) (w : World) :
    getenv o n w = Res.ret (o.getenv n) { w with trace := w.trace ++ [Effect.getenv n] } := rfl

@[simp] theorem dl_dlopen_run (o : Oracle) (n : String) (w : World) :
    dl_dlopen o n w = Res.ret (o.dl_dlopen n) { w with trace := w.trace ++ [Effect.dl_dlopen n] } :=
  rfl

@[simp] theorem stat_run (o : Oracle) (n : String) (w : World) :
    stat o n w = Res.ret (o.stat n) { w with trace := w.trace ++ [Effect.stat n] } := rfl

@[simp] theorem get_classpath_run (w : World) :
    get_classpath w = Res.ret w.classpath w := rfl

@[simp] theorem set_classpath_run (v : Option CStr) (w : World) :
    set_classpath v w = Res.ret () { w with classpath := v } := rfl

@[simp] theorem getenv_ptr_run (o : Oracle) (n : String) (w : World) :
    getenv_ptr o n w =
      Res.ret ((o.getenv_addr n).map CStr.environ)
        { w with trace := w.trace ++ [Effect.getenv n] } := rfl

theorem getenv_of_addr_none (o : Oracle) (n : String) (h : o.getenv_addr n = none) :
    o.getenv n = none := by
  simp [Oracle.getenv, h]

theorem getenv_of_addr_some (o : Oracle) (n : String) (a : Nat) (h : o.getenv_addr n = some a) :
    o.getenv n = some (o.text_at a) := by
  simp [Oracle.getenv, h]

@[simp] theorem bdj_get_method_run (o : Oracle) (c n sg : String) (w : World) :
    bdj_get_method o c n sg w =
      Res.ret (o.bdj_get_method c n sg)
        { w with trace := w.trace ++ [Effect.bdj_get_method c n sg] } := rfl

@[simp] theorem dl_dlsym_run (o : Oracle) (h : Nat) (n : String) (w : World) :
    dl_dlsym o h n w =
      Res.ret (o.dl_dlsym h n) { w with trace := w.trace ++ [Effect.dl_dlsym h n] } := rfl

@[simp] theorem call_static_run (o : Oracle) (c n sg : String) (args : List JArg) (w : World) :
    call_static o c n sg args w =
      Res.ret ()
        { w with
          pending := w.pending || o.throws n
          trace := w.trace ++ [Effect.CallStaticMethod c n sg args] } := rfl

@[simp] theorem exception_check_run (w : World) :
    exception_check w =
      Res.ret ()
        { w with
          pending := false
          trace := w.trace ++ Effect.ExceptionOccurred ::
            (if w.pending then [Effect.ExceptionDescribe, Effect.ExceptionClear] else []) } := by
  cases w with
  | mk heap classpath pending trace =>
    cases pending <;> simp [exception_check]

@[simp] theorem get_env_run (o : Oracle) (jvm : Nat) (a : Int) (w : World) :
    get_env o jvm a w =
      Res.ret (if o.GetEnv ≠ JNI_OK then 1 else a)
        { w with trace := w.trace ++ attach_events o jvm } := by
  by_cases hg : o.GetEnv = JNI_OK <;> simp [get_env, M.bind, attach_events, hg]

@[simp] theorem emit_if_run (c : Prop) [Decidable c] (e : Effect) (w : World) :
    (if c then emit e else pure PUnit.unit) w =
      Res.ret () { w with trace := w.trace ++ (if c then [e] else []) } := by
  by_cases hc : c <;> simp [hc]

theorem load_run (p : Nat) (s : BDJAVA) (b : Bool) (w : World)
    (hp : p ≠ 0) (hb : w.heap p = some { data := s, live := b }) :
    load p w =
      Res.ret s { w with trace := w.trace ++ (if b then [] else [Effect.use_after_free p]) } := by
  cases b <;> simp [load, hp, hb]

@[simp] theorem free_run (p : Nat) (w : World) :
    free p w =
      Res.ret ()
        { w with
          heap := fun a =>
            if a = p then (w.heap p).map (fun b => { b with live := false }) else w.heap a
          trace := w.trace ++ [Effect.free p] } := rfl

/-! ## The boot-archive resolver -/

theorem find_jar_loop_run (o : Oracle) (l : List String) (w : World) :
    find_jar_loop o l w =
      Res.ret ((l.find? (fun p => decide (o.stat p = 0))).map CStr.literal)
        { w with
          classpath :=
            match l.find? (fun p => decide (o.stat p = 0)) with
            | some p => some (CStr.literal p)
            | none => w.classpath
          trace := w.trace ++ stat_events o l } := by
  induction l generalizing w with
  | nil => simp [find_jar_loop, stat_events]
  | cons p rest ih =>
    by_cases hp : o.stat p = 0
    · simp [find_jar_loop, stat_events, M.bind, hp]
    · simp [find_jar_loop, stat_events, M.bind, hp, ih]

theorem find_libbluray_jar_run (cfg : Config) (o : Oracle) (w : World) :
    _find_libbluray_jar cfg o w =
      Res.ret (some (resolved_ptr cfg o w.classpath))
        { w with
          classpath := some (resolved_ptr cfg o w.classpath)
          trace := w.trace ++ resolve_events cfg o w.classpath } := by
  cases hc : w.classpath with
  | some c =>
    simp [_find_libbluray_jar, M.bind, hc, resolved_ptr, resolve_events]
    cases w
    simp_all
  | none =>
    cases ha : o.getenv_addr "LIBBLURAY_CP" with
    | some a =>
      have he := getenv_of_addr_some o "LIBBLURAY_CP" a ha
      simp [_find_libbluray_jar, M.bind, hc, ha, he, resolved_ptr, resolve_events]
    | none =>
      have he := getenv_of_addr_none o "LIBBLURAY_CP" ha
      cases hf : (jar_paths cfg).find? (fun p => decide (o.stat p = 0)) with
      | some p =>
        simp [_find_libbluray_jar, M.bind, hc, ha, he, resolved_ptr, resolve_events,
          find_jar_loop_run, hf]
      | none =>
        simp [_find_libbluray_jar, M.bind, hc, ha, he, resolved_ptr, resolve_events,
          find_jar_loop_run, hf]

/-- C9: on a POSIX build `_load_jvm` makes, with `JAVA_HOME` set to `r`, the one
load attempt on `r/jre/lib/JAVA_ARCH/server/libjvm` and returns its result; with
`JAVA_HOME` unset it first tries the bare name `libjvm`, returns that handle
with no further attempt when it is not null, and otherwise makes one last
attempt on the path built the same way from `/usr/lib/jvm/default-java/`,
returning that attempt's result. -/
theorem load_jvm_posix_order (cfg : Config) (o : Oracle) (w : World)
    (hposix : cfg.WIN32 = false) :
    (∀ r, o.getenv "JAVA_HOME" = some r →
      _load_jvm cfg o w =
        Res.ret (o.dl_dlopen (r ++ "/jre/lib/" ++ cfg.JAVA_ARCH ++ "/server/libjvm"))
          { w with trace := w.trace ++
              [Effect.getenv "JAVA_HOME",
               Effect.dl_dlopen (r ++ "/jre/lib/" ++ cfg.JAVA_ARCH ++ "/server/libjvm")] }) ∧
    (o.getenv "JAVA_HOME" = none → o.dl_dlopen "libjvm" ≠ 0 →
      _load_jvm cfg o w =
        Res.ret (o.dl_dlopen "libjvm")
          { w with trace := w.trace ++
              [Effect.getenv "JAVA_HOME", Effect.dl_dlopen "libjvm"] }) ∧
    (o.getenv "JAVA_HOME" = none → o.dl_dlopen "libjvm" = 0 →
      _load_jvm cfg o w =
        Res.ret
          (o.dl_dlopen
            ("/usr/lib/jvm/default-java/" ++ "/jre/lib/" ++ cfg.JAVA_ARCH ++ "/server/libjvm"))
          { w with trace := w.trace ++
              [Effect.getenv "JAVA_HOME", Effect.dl_dlopen "libjvm",
               Effect.dl_dlopen
                 ("/usr/lib/jvm/default-java/" ++ "/jre/lib/" ++ cfg.JAVA_ARCH ++
                   "/server/libjvm")] }) := by
  refine ⟨?_, ?_, ?_⟩
  · intro r hr
    simp [_load_jvm, M.bind, hr, jvm_path, hposix]
  · intro hn hh
    simp [_load_jvm, M.bind, hn, hh]
  · intro hn hh
    simp [_load_jvm, M.bind, hn, hh, jvm_path, hposix]

/-! ## `bdj_close` -/

theorem bdj_close_run (o : Oracle) (p : Nat) (s : BDJAVA) (b : Bool) (w : World)
    (hp : p ≠ 0) (hb : w.heap p = some { data := s, live := b }) :
    bdj_close o p w = Res.ret () (close_world o p s b w) := by
  by_cases hh : s.h_libjvm = 0 <;> by_cases hj : s.jvm = 0
  · simp [bdj_close, M.bind, load_run p s b w hp hb, hp, hb, X_FREE, hj, hh, close_world,
      close_events]
  · by_cases hf : o.bdj_get_method "org/videolan/Libbluray" "shutdown" "()V" = 0 <;>
    by_cases hg : o.GetEnv = JNI_OK <;> by_cases ha : o.uninit_attach = 0 <;>
    simp [bdj_close, M.bind, load_run p s b w hp hb, hp, hb, X_FREE, hj, hh, hf, hg, ha,
      close_world, close_events, invoke_events, detach_events, attach_events]
  · simp [bdj_close, M.bind, load_run p s b w hp hb, hp, hb, X_FREE, hj, hh, close_world,
      close_events]
  · by_cases hf : o.bdj_get_method "org/videolan/Libbluray" "shutdown" "()V" = 0 <;>
    by_cases hg : o.GetEnv = JNI_OK <;> by_cases ha : o.uninit_attach = 0 <;>
    simp [bdj_close, M.bind, load_run p s b w hp hb, hp, hb, X_FREE, hj, hh, hf, hg, ha,
      close_world, close_events, invoke_events, detach_events, attach_events]

theorem teardown_steps_append (a b : List Effect) :
    teardown_steps (a ++ b) = teardown_steps a ++ teardown_steps b := by
  simp [teardown_steps]

theorem jvm_calls_append (a b : List Effect) :
    jvm_calls (a ++ b) = jvm_calls a ++ jvm_calls b := by
  simp [jvm_calls]

theorem new_events_ret {α : Type} (w : World) (a : α) (w1 : World) (es : List Effect)
    (h : w1.trace = w.trace ++ es) : new_events w (Res.ret a w1) = es := by
  simp [new_events, Res.world, h]

theorem teardown_steps_close_events (o : Oracle) (s : BDJAVA) (pending : Bool) (p : Nat) :
    teardown_steps (close_events o s pending p) =
      (if s.jvm ≠ 0 ∧ o.bdj_get_method "org/videolan/Libbluray" "shutdown" "()V" ≠ 0
        then [Effect.CallStaticMethod "org/videolan/Libbluray" "shutdown" "()V" []] else []) ++
      (if s.jvm ≠ 0 then [Effect.DestroyJavaVM s.jvm] else []) ++
      (if s.h_libjvm ≠ 0 then [Effect.dl_dlclose s.h_libjvm] else []) ++
      [Effect.free p] := by
  by_cases hh : s.h_libjvm = 0 <;> by_cases hj : s.jvm = 0
  · simp [close_events, teardown_steps, hh, hj]
  · by_cases hf : o.bdj_get_method "org/videolan/Libbluray" "shutdown" "()V" = 0 <;>
    by_cases hg : o.GetEnv = JNI_OK <;> by_cases ha : o.uninit_attach = 0 <;>
    cases hb : (pending || o.throws "shutdown") <;>
    simp [close_events, teardown_steps, hh, hj, hf, hg, ha, hb, invoke_events, detach_events,
      attach_events]
  · simp [close_events, teardown_steps, hh, hj]
  · by_cases hf : o.bdj_get_method "org/videolan/Libbluray" "shutdown" "()V" = 0 <;>
    by_cases hg : o.GetEnv = JNI_OK <;> by_cases ha : o.uninit_attach = 0 <;>
    cases hb : (pending || o.throws "shutdown") <;>
    simp [close_events, teardown_steps, hh, hj, hf, hg, ha, hb, invoke_events, detach_events,
      attach_events]

/-- C4: `bdj_close` on a live session tears down in order: the hosted
`shutdown` call (when the VM handle is not null and the entry point resolves),
then `DestroyJavaVM` (exactly when the VM handle is not null), then
`dl_dlclose` (exactly when the library handle is not null), then the `free` of
the record, which is the last effect of all; with a null VM handle no call
into the VM is made; on a null session nothing happens. -/
theorem bdj_close_teardown_order (o : Oracle) (p : Nat) (s : BDJAVA) (w : World)
    (hp : p ≠ 0) (hlive : w.heap p = some { data := s, live := true }) :
    (bdj_close o p w).value = some () ∧
    teardown_steps (new_events w (bdj_close o p w)) =
      (if s.jvm ≠ 0 ∧ o.bdj_get_method "org/videolan/Libbluray" "shutdown" "()V" ≠ 0
        then [Effect.CallStaticMethod "org/videolan/Libbluray" "shutdown" "()V" []] else []) ++
      (if s.jvm ≠ 0 then [Effect.DestroyJavaVM s.jvm] else []) ++
      (if s.h_libjvm ≠ 0 then [Effect.dl_dlclose s.h_libjvm] else []) ++
      [Effect.free p] ∧
    (new_events w (bdj_close o p w)).getLast? = some (Effect.free p) ∧
    (s.jvm = 0 → jvm_calls (new_events w (bdj_close o p w)) = []) ∧
    (∀ w0 : World, bdj_close o 0 w0 = Res.ret () w0) := by
  have hnull : ∀ w0 : World, bdj_close o 0 w0 = Res.ret () w0 := by
    intro w0
    simp [bdj_close]
  have hev : new_events w (bdj_close o p w) = close_events o s w.pending p := by
    rw [bdj_close_run o p s true w hp hlive]
    exact new_events_ret _ _ _ _ (by simp [close_world])
  rw [hev]
  refine ⟨?_, teardown_steps_close_events o s w.pending p, ?_, ?_, hnull⟩
  · rw [bdj_close_run o p s true w hp hlive]
    rfl
  · simp [close_events]
  · intro hj
    by_cases hh : s.h_libjvm = 0 <;> simp [close_events, jvm_calls, hj, hh]

/-- Witness for C4: the sample session with VM handle `7` and library handle
`9`, with no `shutdown` entry point resolving. -/
theorem bdj_close_teardown_order_witness :
    (4096 ≠ 0 ∧ session_world.heap 4096 = some { data := sample_session, live := true }) ∧
    teardown_steps (new_events session_world (bdj_close bare_oracle 4096 session_world)) =
      [Effect.DestroyJavaVM 7, Effect.dl_dlclose 9, Effect.free 4096] :=
  ⟨⟨by decide, rfl⟩,
   (bdj_close_teardown_order bare_oracle 4096 sample_session session_world (by decide) rfl).2.1⟩

theorem count_free_teardown (p : Nat) (es : List Effect) :
    es.count (Effect.free p) = (teardown_steps es).count (Effect.free p) := by
  unfold teardown_steps
  rw [List.count_filter]
  rfl

theorem use_after_free_not_mem_close_events (o : Oracle) (s : BDJAVA) (pending : Bool)
    (p q : Nat) : Effect.use_after_free q ∉ close_events o s pending p := by
  simp only [close_events, attach_events, invoke_events, detach_events]
  split_ifs <;> simp

/-- C5, as amended: `bdj_close` is a no-op on a null session, so it can be
repeated there.  On a live session, whatever handles it holds, one call
returns, reads no released block, frees the record exactly once and leaves
the block released.  The pointer is passed by value, so nothing tells a second
call on the same pointer that the record is gone: it reads the released
record, frees it once more, and repeats `DestroyJavaVM` and `dl_dlclose` on
the handles it finds there. -/
theorem bdj_close_once_only (o o2 : Oracle) (p : Nat) (s : BDJAVA) (w : World)
    (hp : p ≠ 0) (hlive : w.heap p = some { data := s, live := true }) :
    (∀ w0 : World, bdj_close o 0 w0 = Res.ret () w0) ∧
    (bdj_close o p w).value = some () ∧
    (new_events w (bdj_close o p w)).count (Effect.free p) = 1 ∧
    Effect.use_after_free p ∉ new_events w (bdj_close o p w) ∧
    (bdj_close o p w).world.heap p = some { data := s, live := false } ∧
    Effect.use_after_free p ∈
      new_events (bdj_close o p w).world (bdj_close o2 p (bdj_close o p w).world) ∧
    (new_events (bdj_close o p w).world
      (bdj_close o2 p (bdj_close o p w).world)).count (Effect.free p) = 1 ∧
    (s.jvm ≠ 0 → Effect.DestroyJavaVM s.jvm ∈
      new_events (bdj_close o p w).world (bdj_close o2 p (bdj_close o p w).world)) ∧
    (s.h_libjvm ≠ 0 → Effect.dl_dlclose s.h_libjvm ∈
      new_events (bdj_close o p w).world (bdj_close o2 p (bdj_close o p w).world)) := by
  have hnull : ∀ w0 : World, bdj_close o 0 w0 = Res.ret () w0 := by
    intro w0
    simp [bdj_close]
  have h1 : bdj_close o p w = Res.ret () (close_world o p s true w) :=
    bdj_close_run o p s true w hp hlive
  have hheap : (close_world o p s true w).heap p = some { data := s, live := false } := by
    simp [close_world]
  have h2 : bdj_close o2 p (close_world o p s true w) =
      Res.ret () (close_world o2 p s false (close_world o p s true w)) :=
    bdj_close_run o2 p s false _ hp hheap
  have hev1 : new_events w (bdj_close o p w) = close_events o s w.pending p := by
    rw [h1]
    exact new_events_ret _ _ _ _ (by simp [close_world])
  have hev2 : new_events (close_world o p s true w)
      (bdj_close o2 p (close_world o p s true w)) =
        Effect.use_after_free p ::
          close_events o2 s (close_world o p s true w).pending p := by
    rw [h2]
    exact new_events_ret _ _ _ _ (by simp [close_world])
  have hcount : ∀ (o3 : Oracle) (b : Bool),
      (close_events o3 s b p).count (Effect.free p) = 1 := by
    intro o3 b
    rw [count_free_teardown, teardown_steps_close_events]
    split_ifs <;> simp
  have hw1 : (bdj_close o p w).world = close_world o p s true w := by
    rw [h1]
    rfl
  rw [hw1, hev1, hev2]
  refine ⟨hnull, ?_, hcount o _, use_after_free_not_mem_close_events o s _ p p, hheap, ?_, ?_,
    ?_, ?_⟩
  · rw [h1]
    rfl
  · simp
  · rw [List.count_cons, hcount o2 _]
    simp
  · intro hj
    simp [close_events, hj]
  · intro hh
    simp [close_events, hh]

/-- Witness for C5 as amended: the sample session closed twice. -/
theorem bdj_close_once_only_witness :
    (4096 ≠ 0 ∧ session_world.heap 4096 = some { data := sample_session, live := true }) ∧
    (new_events session_world (bdj_close bare_oracle 4096 session_world)).count
      (Effect.free 4096) = 1 :=
  ⟨⟨by decide, rfl⟩,
   (bdj_close_once_only bare_oracle bare_oracle 4096 sample_session session_world
     (by decide) rfl).2.2.1⟩

/-- C5 fails as stated: after one `bdj_close` of the sample session, a second
`bdj_close` on the same pointer reads the released record, destroys the VM
again, closes the library again and frees the record again, so the trace
holds two `free`s of the same address. -/
theorem bdj_close_twice_repeats_teardown :
    new_events closed_once (bdj_close bare_oracle 4096 closed_once) =
      [Effect.use_after_free 4096, Effect.GetEnv 7,
       Effect.bdj_get_method "org/videolan/Libbluray" "shutdown" "()V",
       Effect.DestroyJavaVM 7, Effect.dl_dlclose 9, Effect.free 4096] ∧
    (bdj_close bare_oracle 4096 closed_once).world.trace.count (Effect.free 4096) = 2 := by
  decide

/-! ## `_load_jvm` and `_find_libbluray_jar` -/

/-- Witness for C9: `JAVA_HOME` set to `/opt/java` on the sample POSIX build. -/
theorem load_jvm_posix_order_witness :
    sample_config.WIN32 = false ∧
    (_load_jvm sample_config java_home_oracle empty_world).value = some 9 :=
  ⟨rfl, by
    rw [(load_jvm_posix_order sample_config java_home_oracle empty_world rfl).1 "/opt/java" rfl]
    decide⟩

/-- C10, as amended: once a call of `_find_libbluray_jar` has returned the
pointer `p`, every later call, in any world where the static `classpath` still
holds what that call left there, and whatever the environment and the
filesystem then answer, returns the same pointer `p` and leaves the world as it
found it: it makes no call at all, so it neither reads the environment nor
checks a path.  The path read through `p` is the same text as at the first
call whenever the environment string `p` may point at still holds what it
held then, and in particular whenever the first call resolved with nothing
cached and `LIBBLURAY_CP` unset, where `p` points at a string literal. -/
theorem find_libbluray_jar_cached_pointer (cfg : Config) (o : Oracle) (w : World)
    (p : Option CStr) (w1 : World)
    (hfirst : _find_libbluray_jar cfg o w = Res.ret p w1) :
    ∀ (o2 : Oracle) (w2 : World), w2.classpath = w1.classpath →
      _find_libbluray_jar cfg o2 w2 = Res.ret p w2 ∧
      ((∀ a, p = some (CStr.environ a) → o2.text_at a = o.text_at a) →
        returned_text o2 (_find_libbluray_jar cfg o2 w2) =
          returned_text o (_find_libbluray_jar cfg o w)) ∧
      (w.classpath = none → o.getenv "LIBBLURAY_CP" = none →
        returned_text o2 (_find_libbluray_jar cfg o2 w2) =
          returned_text o (_find_libbluray_jar cfg o w)) := by
  intro o2 w2 hc
  have hfirst2 := hfirst
  rw [find_libbluray_jar_run] at hfirst2
  injection hfirst2 with hp hw
  subst hw
  subst hp
  simp only at hc
  have hsecond : _find_libbluray_jar cfg o2 w2 =
      Res.ret (some (resolved_ptr cfg o w.classpath)) w2 := by
    rw [find_libbluray_jar_run, hc]
    cases w2
    simp_all [resolved_ptr, resolve_events]
  rw [hsecond, hfirst]
  refine ⟨rfl, ?_, ?_⟩
  · intro hsame
    cases hr : resolved_ptr cfg o w.classpath with
    | literal t => rfl
    | environ a =>
      have h := hsame a (by rw [hr])
      simp [returned_text, text_of, h]
  · intro hnone henv
    have ha : o.getenv_addr "LIBBLURAY_CP" = none := by
      cases h : o.getenv_addr "LIBBLURAY_CP" with
      | none => rfl
      | some a =>
        rw [getenv_of_addr_some o "LIBBLURAY_CP" a h] at henv
        exact absurd henv (by simp)
    cases hf : (jar_paths cfg).find? (fun c => decide (o.stat c = 0)) <;>
    simp [returned_text, text_of, resolved_ptr, hnone, ha, hf]

/-- Witness for C10 as amended: a first call with `LIBBLURAY_CP` set caches the
pointer `getenv` returned; a later call under an environment that still holds
the same string returns that pointer and the same text. -/
theorem find_libbluray_jar_cached_pointer_witness :
    (_find_libbluray_jar sample_config override_oracle empty_world =
        Res.ret (some (CStr.environ 12288)) override_cached ∧
      override_cached.classpath = override_cached.classpath) ∧
    _find_libbluray_jar sample_config override_oracle override_cached =
      Res.ret (some (CStr.environ 12288)) override_cached ∧
    returned_text override_oracle
        (_find_libbluray_jar sample_config override_oracle override_cached) =
      returned_text override_oracle
        (_find_libbluray_jar sample_config override_oracle empty_world) :=
  ⟨⟨rfl, rfl⟩,
   (find_libbluray_jar_cached_pointer sample_config override_oracle empty_world
     (some (CStr.environ 12288)) override_cached rfl override_oracle override_cached rfl).1,
   (find_libbluray_jar_cached_pointer sample_config override_oracle empty_world
     (some (CStr.environ 12288)) override_cached rfl override_oracle override_cached rfl).2.1
     (fun _ _ => rfl)⟩

/-- C10 fails as stated: a first call with `LIBBLURAY_CP` set returns the
pointer `getenv` gave, behind which the path is `/tmp/a.jar`; after the
environment string at that address is overwritten in place, a later call
returns the same pointer, behind which the path now is `/tmp/b.jar`. -/
theorem find_libbluray_jar_cached_text_changes :
    returned_text override_oracle
        (_find_libbluray_jar sample_config override_oracle empty_world) =
      some "/tmp/a.jar" ∧
    override_cached.classpath = some (CStr.environ 12288) ∧
    (_find_libbluray_jar sample_config rewritten_oracle override_cached).value =
      some (some (CStr.environ 12288)) ∧
    returned_text rewritten_oracle
        (_find_libbluray_jar sample_config rewritten_oracle override_cached) =
      some "/tmp/b.jar" := by
  decide

/-! ## `bdj_start`, `bdj_stop`, `bdj_process_event` -/

theorem bdj_start_run (o : Oracle) (p : Nat) (s : BDJAVA) (title : Nat) (w : World)
    (hp : p ≠ 0) (hlive : w.heap p = some { data := s, live := true }) (hjvm : s.jvm ≠ 0) :
    bdj_start o p title w =
      Res.ret
        (if (if o.bdj_get_method "org/videolan/BDJLoader" "load" "(I)Z" ≠ 0
              then o.CallStaticBooleanMethod "load" else JNI_FALSE) = JNI_TRUE
          then BDJ_SUCCESS else BDJ_ERROR)
        (invoke_world o s.jvm 0 "org/videolan/BDJLoader" "load" "(I)Z"
          [JArg.jint (to_jint title)] w) := by
  by_cases hf : o.bdj_get_method "org/videolan/BDJLoader" "load" "(I)Z" = 0 <;>
  by_cases hg : o.GetEnv = JNI_OK <;>
  by_cases hr : o.CallStaticBooleanMethod "load" = JNI_TRUE <;>
  simp [bdj_start, M.bind, load_run p s true w hp hlive, hp, hjvm, hf, hg, hr, invoke_world,
    invoke_events, detach_events, attach_events, JNI_FALSE, JNI_TRUE]

theorem bdj_stop_run (o : Oracle) (p : Nat) (s : BDJAVA) (w : World)
    (hp : p ≠ 0) (hlive : w.heap p = some { data := s, live := true }) (hjvm : s.jvm ≠ 0) :
    bdj_stop o p w =
      Res.ret
        (if (if o.bdj_get_method "org/videolan/BDJLoader" "unload" "()Z" ≠ 0
              then o.CallStaticBooleanMethod "unload" else JNI_FALSE) = JNI_TRUE
          then BDJ_SUCCESS else BDJ_ERROR)
        (invoke_world o s.jvm o.uninit_attach "org/videolan/BDJLoader" "unload" "()Z" [] w) := by
  by_cases hf : o.bdj_get_method "org/videolan/BDJLoader" "unload" "()Z" = 0 <;>
  by_cases hg : o.GetEnv = JNI_OK <;>
  by_cases ha : o.uninit_attach = 0 <;>
  by_cases hr : o.CallStaticBooleanMethod "unload" = JNI_TRUE <;>
  simp [bdj_stop, M.bind, load_run p s true w hp hlive, hp, hjvm, hf, hg, ha, hr, invoke_world,
    invoke_events, detach_events, attach_events, JNI_FALSE, JNI_TRUE]

theorem ev_name_in_range (ev : Nat) (hev : ev ≤ 8) : ∃ n, ev_name[ev]? = some n := by
  have h : ev < ev_name.length := by
    simp [ev_name]
    omega
  exact ⟨ev_name[ev], List.getElem?_eq_getElem h⟩

theorem bdj_process_event_run (o : Oracle) (p : Nat) (s : BDJAVA) (ev param : Nat) (w : World)
    (hp : p ≠ 0) (hlive : w.heap p = some { data := s, live := true }) (hjvm : s.jvm ≠ 0)
    (hev : ev ≤ 8) :
    bdj_process_event o p ev param w =
      Res.ret ()
        (invoke_world o s.jvm 0 "org/videolan/Libbluray" "processEvent" "(II)V"
          [JArg.uint ev, JArg.uint param] w) := by
  obtain ⟨n, hn⟩ := ev_name_in_range ev hev
  by_cases hf : o.bdj_get_method "org/videolan/Libbluray" "processEvent" "(II)V" = 0 <;>
  by_cases hg : o.GetEnv = JNI_OK <;>
  simp [bdj_process_event, M.bind, load_run p s true w hp hlive, hp, hjvm, hf, hg, hn,
    invoke_world, invoke_events, detach_events, attach_events]

theorem new_events_invoke_world {α : Type} (o : Oracle) (jvm : Nat) (a0 : Int)
    (c n sg : String) (args : List JArg) (w : World) (a : α) :
    new_events w (Res.ret a (invoke_world o jvm a0 c n sg args w)) =
      attach_events o jvm ++ invoke_events o w.pending c n sg args ++
        detach_events o jvm a0 :=
  new_events_ret _ _ _ _ (by simp [invoke_world])

theorem thread_calls_invoke (o : Oracle) (jvm : Nat) (a0 : Int) (pending : Bool)
    (c n sg : String) (args : List JArg) :
    thread_calls (attach_events o jvm ++ invoke_events o pending c n sg args ++
        detach_events o jvm a0) =
      Effect.GetEnv jvm ::
        (if o.GetEnv ≠ JNI_OK then
          [Effect.AttachCurrentThread jvm, Effect.DetachCurrentThread jvm]
         else if a0 ≠ 0 then [Effect.DetachCurrentThread jvm] else []) := by
  simp only [attach_events, invoke_events, detach_events, thread_calls]
  split_ifs <;> simp_all

theorem hosted_calls_invoke (o : Oracle) (jvm : Nat) (a0 : Int) (pending : Bool)
    (c n sg : String) (args : List JArg) :
    hosted_calls (attach_events o jvm ++ invoke_events o pending c n sg args ++
        detach_events o jvm a0) =
      (if o.bdj_get_method c n sg ≠ 0 then [Effect.CallStaticMethod c n sg args] else []) := by
  simp only [attach_events, invoke_events, detach_events, hosted_calls]
  split_ifs <;> simp_all

/-- C2, as amended: on a session that holds a VM handle, `bdj_start` returns
`BDJ_SUCCESS` exactly when the `load` entry point resolves and the call
returns `JNI_TRUE`, and `BDJ_ERROR` in every other case; whether the call
left a fault pending plays no part in the result, the fault is only cleared.
On a null session it returns `BDJ_ERROR` and does nothing.  The same holds
for `bdj_stop` and the `unload` entry point. -/
theorem bdj_start_stop_status (o : Oracle) (p : Nat) (s : BDJAVA) (title : Nat) (w : World)
    (hp : p ≠ 0) (hlive : w.heap p = some { data := s, live := true }) (hjvm : s.jvm ≠ 0) :
    ((bdj_start o p title w).value = some BDJ_SUCCESS ↔
      (o.bdj_get_method "org/videolan/BDJLoader" "load" "(I)Z" ≠ 0 ∧
        o.CallStaticBooleanMethod "load" = JNI_TRUE)) ∧
    ((bdj_start o p title w).value = some BDJ_ERROR ↔
      ¬ (o.bdj_get_method "org/videolan/BDJLoader" "load" "(I)Z" ≠ 0 ∧
        o.CallStaticBooleanMethod "load" = JNI_TRUE)) ∧
    (o.bdj_get_method "org/videolan/BDJLoader" "load" "(I)Z" ≠ 0 →
      (bdj_start o p title w).world.pending = false) ∧
    ((bdj_stop o p w).value = some BDJ_SUCCESS ↔
      (o.bdj_get_method "org/videolan/BDJLoader" "unload" "()Z" ≠ 0 ∧
        o.CallStaticBooleanMethod "unload" = JNI_TRUE)) ∧
    ((bdj_stop o p w).value = some BDJ_ERROR ↔
      ¬ (o.bdj_get_method "org/videolan/BDJLoader" "unload" "()Z" ≠ 0 ∧
        o.CallStaticBooleanMethod "unload" = JNI_TRUE)) ∧
    (o.bdj_get_method "org/videolan/BDJLoader" "unload" "()Z" ≠ 0 →
      (bdj_stop o p w).world.pending = false) ∧
    (∀ (t : Nat) (w0 : World), bdj_start o 0 t w0 = Res.ret BDJ_ERROR w0) ∧
    (∀ w0 : World, bdj_stop o 0 w0 = Res.ret BDJ_ERROR w0) := by
  rw [bdj_start_run o p s title w hp hlive hjvm, bdj_stop_run o p s w hp hlive hjvm]
  refine ⟨?_, ?_, ?_, ?_, ?_, ?_, ?_, ?_⟩
  · by_cases hf : o.bdj_get_method "org/videolan/BDJLoader" "load" "(I)Z" = 0 <;>
    by_cases hr : o.CallStaticBooleanMethod "load" = JNI_TRUE <;>
    simp [Res.value, hf, hr, BDJ_SUCCESS, BDJ_ERROR, JNI_FALSE, JNI_TRUE]
  · by_cases hf : o.bdj_get_method "org/videolan/BDJLoader" "load" "(I)Z" = 0 <;>
    by_cases hr : o.CallStaticBooleanMethod "load" = JNI_TRUE <;>
    simp [Res.value, hf, hr, BDJ_SUCCESS, BDJ_ERROR, JNI_FALSE, JNI_TRUE]
  · intro hf
    simp [Res.world, invoke_world, hf]
  · by_cases hf : o.bdj_get_method "org/videolan/BDJLoader" "unload" "()Z" = 0 <;>
    by_cases hr : o.CallStaticBooleanMethod "unload" = JNI_TRUE <;>
    simp [Res.value, hf, hr, BDJ_SUCCESS, BDJ_ERROR, JNI_FALSE, JNI_TRUE]
  · by_cases hf : o.bdj_get_method "org/videolan/BDJLoader" "unload" "()Z" = 0 <;>
    by_cases hr : o.CallStaticBooleanMethod "unload" = JNI_TRUE <;>
    simp [Res.value, hf, hr, BDJ_SUCCESS, BDJ_ERROR, JNI_FALSE, JNI_TRUE]
  · intro hf
    simp [Res.world, invoke_world, hf]
  · intro t w0
    simp [bdj_start]
  · intro w0
    simp [bdj_stop]

/-- Witness for C2 as amended: on the sample session, with every entry point
resolving and every call returning `JNI_TRUE`, `bdj_start` returns
`BDJ_SUCCESS`. -/
theorem bdj_start_stop_status_witness :
    (4096 ≠ 0 ∧ session_world.heap 4096 = some { data := sample_session, live := true } ∧
      sample_session.jvm ≠ 0) ∧
    (bdj_start fault_oracle 4096 0 session_world).value = some BDJ_SUCCESS :=
  ⟨⟨by decide, rfl, by decide⟩,
   (bdj_start_stop_status fault_oracle 4096 sample_session 0 session_world (by decide) rfl
     (by decide)).1.mpr ⟨by decide, rfl⟩⟩

/-- C2 fails as stated: on the sample session, with the `load` and `unload`
calls returning `JNI_TRUE` and leaving a fault pending, the fault is described
and cleared and `bdj_start` and `bdj_stop` still return `BDJ_SUCCESS`. -/
theorem bdj_start_stop_success_despite_fault :
    fault_oracle.throws "load" = true ∧
    new_events session_world (bdj_start fault_oracle 4096 0 session_world) =
      [Effect.GetEnv 7, Effect.bdj_get_method "org/videolan/BDJLoader" "load" "(I)Z",
       Effect.CallStaticMethod "org/videolan/BDJLoader" "load" "(I)Z" [JArg.jint 0],
       Effect.ExceptionOccurred, Effect.ExceptionDescribe, Effect.ExceptionClear,
       Effect.DeleteLocalRef] ∧
    (bdj_start fault_oracle 4096 0 session_world).value = some BDJ_SUCCESS ∧
    (bdj_start fault_oracle 4096 0 session_world).value ≠ some BDJ_ERROR ∧
    fault_oracle.throws "unload" = true ∧
    new_events session_world (bdj_stop fault_oracle 4096 session_world) =
      [Effect.GetEnv 7, Effect.bdj_get_method "org/videolan/BDJLoader" "unload" "()Z",
       Effect.CallStaticMethod "org/videolan/BDJLoader" "unload" "()Z" [],
       Effect.ExceptionOccurred, Effect.ExceptionDescribe, Effect.ExceptionClear,
       Effect.DeleteLocalRef] ∧
    (bdj_stop fault_oracle 4096 session_world).value = some BDJ_SUCCESS ∧
    (bdj_stop fault_oracle 4096 session_world).value ≠ some BDJ_ERROR := by
  decide

/-- Attach and detach are balanced in `bdj_start` and `bdj_process_event`,
whose local `attach` starts at `0`: after `GetEnv`, the thread is attached and
detached once each when it was not attached, and neither when it was. -/
theorem attach_detach_balanced_start_event (o : Oracle) (p : Nat) (s : BDJAVA)
    (title ev param : Nat) (w : World)
    (hp : p ≠ 0) (hlive : w.heap p = some { data := s, live := true }) (hjvm : s.jvm ≠ 0)
    (hev : ev ≤ 8) :
    thread_calls (new_events w (bdj_start o p title w)) =
      Effect.GetEnv s.jvm ::
        (if o.GetEnv ≠ JNI_OK then
          [Effect.AttachCurrentThread s.jvm, Effect.DetachCurrentThread s.jvm] else []) ∧
    thread_calls (new_events w (bdj_process_event o p ev param w)) =
      Effect.GetEnv s.jvm ::
        (if o.GetEnv ≠ JNI_OK then
          [Effect.AttachCurrentThread s.jvm, Effect.DetachCurrentThread s.jvm] else []) := by
  rw [bdj_start_run o p s title w hp hlive hjvm,
    bdj_process_event_run o p s ev param w hp hlive hjvm hev,
    new_events_invoke_world, new_events_invoke_world, thread_calls_invoke, thread_calls_invoke]
  simp

/-- In `bdj_stop` and `bdj_close`, whose local `attach` has no initialiser,
a thread that was not attached is attached and detached once each; for a
thread that was attached, `DetachCurrentThread` is called exactly when the
uninitialised variable happens to hold a non-zero value. -/
theorem attach_detach_stop_close (o : Oracle) (p : Nat) (s : BDJAVA) (w : World)
    (hp : p ≠ 0) (hlive : w.heap p = some { data := s, live := true }) (hjvm : s.jvm ≠ 0) :
    thread_calls (new_events w (bdj_stop o p w)) =
      Effect.GetEnv s.jvm ::
        (if o.GetEnv ≠ JNI_OK then
          [Effect.AttachCurrentThread s.jvm, Effect.DetachCurrentThread s.jvm]
         else if o.uninit_attach ≠ 0 then [Effect.DetachCurrentThread s.jvm] else []) ∧
    thread_calls (new_events w (bdj_close o p w)) =
      Effect.GetEnv s.jvm ::
        (if o.GetEnv ≠ JNI_OK then
          [Effect.AttachCurrentThread s.jvm, Effect.DetachCurrentThread s.jvm]
         else if o.uninit_attach ≠ 0 then [Effect.DetachCurrentThread s.jvm] else []) := by
  refine ⟨?_, ?_⟩
  · rw [bdj_stop_run o p s w hp hlive hjvm, new_events_invoke_world, thread_calls_invoke]
  · rw [bdj_close_run o p s true w hp hlive,
      new_events_ret w () _ (close_events o s w.pending p) (by simp [close_world])]
    simp only [close_events, attach_events, invoke_events, detach_events, thread_calls]
    split_ifs <;> simp_all

/-- C3 fails on the code: on the sample session, with the calling thread
already attached (`GetEnv` returns `JNI_OK`, no `AttachCurrentThread` is made)
and the uninitialised `attach` of `bdj_stop` and `bdj_close` holding `1`, both
functions call `DetachCurrentThread`. -/
theorem bdj_stop_close_detach_attached_thread :
    attached_oracle.GetEnv = JNI_OK ∧
    new_events session_world (bdj_stop attached_oracle 4096 session_world) =
      [Effect.GetEnv 7, Effect.bdj_get_method "org/videolan/BDJLoader" "unload" "()Z",
       Effect.DetachCurrentThread 7] ∧
    new_events session_world (bdj_close attached_oracle 4096 session_world) =
      [Effect.GetEnv 7, Effect.bdj_get_method "org/videolan/Libbluray" "shutdown" "()V",
       Effect.DetachCurrentThread 7, Effect.DestroyJavaVM 7, Effect.dl_dlclose 9,
       Effect.free 4096] := by
  decide

/-- C6: on a live session that holds a VM handle, for an event code `0..8`
and any `param`, `bdj_process_event` returns, makes the one hosted call
`processEvent(ev, param)` when the entry point resolves and no hosted call
when it does not, leaves no fault pending after a dispatched call, and leaves
the heap, hence every field of the session, as it was; on a null session it
does nothing. -/
theorem bdj_process_event_dispatch (o : Oracle) (p : Nat) (s : BDJAVA) (ev param : Nat)
    (w : World)
    (hp : p ≠ 0) (hlive : w.heap p = some { data := s, live := true }) (hjvm : s.jvm ≠ 0)
    (hev : ev ≤ 8) :
    (bdj_process_event o p ev param w).value = some () ∧
    hosted_calls (new_events w (bdj_process_event o p ev param w)) =
      (if o.bdj_get_method "org/videolan/Libbluray" "processEvent" "(II)V" ≠ 0 then
        [Effect.CallStaticMethod "org/videolan/Libbluray" "processEvent" "(II)V"
          [JArg.uint ev, JArg.uint param]]
       else []) ∧
    (o.bdj_get_method "org/videolan/Libbluray" "processEvent" "(II)V" ≠ 0 →
      (bdj_process_event o p ev param w).world.pending = false) ∧
    (bdj_process_event o p ev param w).world.heap = w.heap ∧
    (bdj_process_event o p ev param w).world.heap p = some { data := s, live := true } ∧
    (∀ w0 : World, bdj_process_event o 0 ev param w0 = Res.ret () w0) := by
  rw [bdj_process_event_run o p s ev param w hp hlive hjvm hev, new_events_invoke_world,
    hosted_calls_invoke]
  refine ⟨rfl, rfl, ?_, rfl, hlive, ?_⟩
  · intro hf
    simp [Res.world, invoke_world, hf]
  · intro w0
    simp [bdj_process_event]

/-- Witness for C6: the spec's scenario `processEvent(session, PLAYITEM=2, 5)`
on the sample session, with the entry point resolving and the hosted program
faulting. -/
theorem bdj_process_event_dispatch_witness :
    (4096 ≠ 0 ∧ session_world.heap 4096 = some { data := sample_session, live := true } ∧
      sample_session.jvm ≠ 0 ∧ 2 ≤ 8) ∧
    hosted_calls (new_events session_world (bdj_process_event fault_oracle 4096 2 5
        session_world)) =
      [Effect.CallStaticMethod "org/videolan/Libbluray" "processEvent" "(II)V"
        [JArg.uint 2, JArg.uint 5]] :=
  ⟨⟨by decide, rfl, by decide, by decide⟩,
   (bdj_process_event_dispatch fault_oracle 4096 sample_session 2 5 session_world (by decide)
     rfl (by decide) (by decide)).2.1⟩

/-! ## `_bdj_init` and `bdj_open` -/

theorem load_jvm_run (cfg : Config) (o : Oracle) (w : World) :
    _load_jvm cfg o w =
      Res.ret (load_jvm_handle cfg o) { w with trace := w.trace ++ load_jvm_events cfg o } := by
  cases hj : o.getenv "JAVA_HOME" with
  | some r => simp [_load_jvm, M.bind, hj, load_jvm_handle, load_jvm_events]
  | none =>
    by_cases hh : o.dl_dlopen "libjvm" = 0 <;>
    simp [_load_jvm, M.bind, hj, hh, load_jvm_handle, load_jvm_events]

theorem bdj_init_run (o : Oracle) (p : Nat) (s : BDJAVA) (w : World)
    (hp : p ≠ 0) (hlive : w.heap p = some { data := s, live := true }) :
    _bdj_init o p w =
      Res.ret
        (if o.bdj_get_method "org/videolan/Libbluray" "init" "(JLjava/lang/String;)V" = 0
          then 0 else 1)
        (init_world o p s w) := by
  by_cases hf : o.bdj_get_method "org/videolan/Libbluray" "init" "(JLjava/lang/String;)V" = 0
  · simp [_bdj_init, M.bind, hf, init_world, init_events]
  · have hl : ∀ t : List Effect,
        load p { heap := w.heap, classpath := w.classpath, pending := w.pending, trace := t } =
          Res.ret s
            { heap := w.heap, classpath := w.classpath, pending := w.pending, trace := t } := by
      intro t
      simp [load, hp, hlive]
    cases hid : o.bdid_parse (s.path ++ "/CERTIFICATE/id.bdmv") <;>
    simp [_bdj_init, M.bind, hf, hl, init_world, init_events, init_disc_id, hid]

theorem bdj_open_no_library (cfg : Config) (o : Oracle) (path : String)
    (bd registers index osd_cb buf : Nat) (w : World)
    (hh : load_jvm_handle cfg o = 0) :
    bdj_open cfg o path bd registers index osd_cb buf w =
      Res.ret 0 { w with trace := w.trace ++ load_jvm_events cfg o } := by
  simp [bdj_open, M.bind, load_jvm_run, hh]

theorem bdj_open_no_symbol (cfg : Config) (o : Oracle) (path : String)
    (bd registers index osd_cb buf : Nat) (w : World)
    (hh : load_jvm_handle cfg o ≠ 0)
    (hs : o.dl_dlsym (load_jvm_handle cfg o) "JNI_CreateJavaVM" = 0) :
    bdj_open cfg o path bd registers index osd_cb buf w =
      Res.ret 0
        { w with trace := w.trace ++ load_jvm_events cfg o ++
            [Effect.dl_dlsym (load_jvm_handle cfg o) "JNI_CreateJavaVM",
             Effect.dl_dlclose (load_jvm_handle cfg o)] } := by
  simp [bdj_open, M.bind, load_jvm_run, hh, hs]

theorem bdj_open_no_memory (cfg : Config) (o : Oracle) (path : String)
    (bd registers index osd_cb buf : Nat) (w : World)
    (hh : load_jvm_handle cfg o ≠ 0)
    (hs : o.dl_dlsym (load_jvm_handle cfg o) "JNI_CreateJavaVM" ≠ 0)
    (hc : o.calloc = 0) :
    (bdj_open cfg o path bd registers index osd_cb buf w).value = none := by
  simp [bdj_open, M.bind, load_jvm_run, hh, hs, calloc, hc, store, Res.value]

theorem created_world_eq (cfg : Config) (o : Oracle) (path : String)
    (bd registers index osd_cb buf : Nat) (w W : World)
    (hheap : ∀ a, W.heap a =
      if a = o.calloc then
        some { data := opened_record cfg o path bd registers index osd_cb buf, live := true }
      else w.heap a)
    (hcp : W.classpath = some (resolved_ptr cfg o w.classpath))
    (hpe : W.pending = w.pending)
    (htr : W.trace = w.trace ++ create_events cfg o path w.classpath) :
    W = created_world cfg o path bd registers index osd_cb buf w := by
  cases W with
  | mk heap classpath pending trace =>
    simp only at hheap hcp hpe htr
    have hfun : heap = fun a =>
        if a = o.calloc then
          some { data := opened_record cfg o path bd registers index osd_cb buf, live := true }
        else w.heap a := funext hheap
    simp [created_world, hfun, hcp, hpe, htr]

theorem close_world_congr (o : Oracle) (p : Nat) (s : BDJAVA) (b : Bool) (W W2 : World)
    (h : W = W2) : close_world o p s b W = close_world o p s b W2 := by
  rw [h]

theorem init_world_congr (o : Oracle) (p : Nat) (s : BDJAVA) (W W2 : World)
    (h : W = W2) : init_world o p s W = init_world o p s W2 := by
  rw [h]

theorem bdj_open_create_failed (cfg : Config) (o : Oracle) (path : String)
    (bd registers index osd_cb buf : Nat) (w : World)
    (hh : load_jvm_handle cfg o ≠ 0)
    (hs : o.dl_dlsym (load_jvm_handle cfg o) "JNI_CreateJavaVM" ≠ 0)
    (hc : o.calloc ≠ 0)
    (hr : o.create_result ≠ JNI_OK ∨ o.create_env = 0) :
    bdj_open cfg o path bd registers index osd_cb buf w =
      Res.ret 0
        (close_world o o.calloc (opened_record cfg o path bd registers index osd_cb buf) true
          (created_world cfg o path bd registers index osd_cb buf w)) := by
  simp [bdj_open, M.bind, load_jvm_run, hh, hs, calloc, hc, store, find_libbluray_jar_run, hr]
  rw [bdj_close_run o o.calloc (opened_record cfg o path bd registers index osd_cb buf) true _
    hc (by simp [opened_record])]
  simp only [Res.ret.injEq, true_and]
  apply close_world_congr
  apply created_world_eq
  · intro a
    by_cases ha : a = o.calloc <;> simp [ha, opened_record]
  · simp
  · simp
  · simp [create_events, fmt_s, resolved_jar]

theorem bdj_open_created (cfg : Config) (o : Oracle) (path : String)
    (bd registers index osd_cb buf : Nat) (w : World)
    (hh : load_jvm_handle cfg o ≠ 0)
    (hs : o.dl_dlsym (load_jvm_handle cfg o) "JNI_CreateJavaVM" ≠ 0)
    (hc : o.calloc ≠ 0)
    (hr : o.create_result = JNI_OK) (he : o.create_env ≠ 0) :
    bdj_open cfg o path bd registers index osd_cb buf w =
      if o.bdj_get_method "org/videolan/Libbluray" "init" "(JLjava/lang/String;)V" = 0 then
        Res.ret 0
          (close_world o o.calloc (opened_record cfg o path bd registers index osd_cb buf) true
            (init_world o o.calloc (opened_record cfg o path bd registers index osd_cb buf)
              (created_world cfg o path bd registers index osd_cb buf w)))
      else
        Res.ret o.calloc
          (init_world o o.calloc (opened_record cfg o path bd registers index osd_cb buf)
            (created_world cfg o path bd registers index osd_cb buf w)) := by
  have hne : ¬ (o.create_result ≠ JNI_OK ∨ o.create_env = 0) := by
    simp [hr, he]
  by_cases hf : o.bdj_get_method "org/videolan/Libbluray" "init" "(JLjava/lang/String;)V" = 0
  · simp [bdj_open, M.bind, load_jvm_run, hh, hs, calloc, hc, store, find_libbluray_jar_run,
      hr, he, hf]
    rw [bdj_init_run o o.calloc (opened_record cfg o path bd registers index osd_cb buf) _
      hc (by simp [opened_record])]
    simp only [hf, if_true, bind_run, M.bind]
    rw [bdj_close_run o o.calloc (opened_record cfg o path bd registers index osd_cb buf) true _
      hc (by simp [opened_record, init_world])]
    simp only [pure_run, Res.ret.injEq, true_and]
    apply close_world_congr
    apply init_world_congr
    apply created_world_eq
    · intro a
      by_cases ha : a = o.calloc <;> simp [ha, opened_record]
    · simp
    · simp
    · simp [create_events, fmt_s, resolved_jar]
  · simp [bdj_open, M.bind, load_jvm_run, hh, hs, calloc, hc, store, find_libbluray_jar_run,
      hr, he, hf]
    rw [bdj_init_run o o.calloc (opened_record cfg o path bd registers index osd_cb buf) _
      hc (by simp [opened_record])]
    simp only [hf, one_ne_zero, if_false, pure_run, Res.ret.injEq, true_and]
    apply init_world_congr
    apply created_world_eq
    · intro a
      by_cases ha : a = o.calloc <;> simp [ha, opened_record]
    · simp
    · simp
    · simp [create_events, fmt_s, resolved_jar]

/-- A session `bdj_open` returns is a live record that holds the library
handle, the path it was opened on and the VM handle `JNI_CreateJavaVM` stored. -/
theorem bdj_open_returns_live_session (cfg : Config) (o : Oracle) (path : String)
    (bd registers index osd_cb buf : Nat) (w : World) (p : Nat) (w2 : World)
    (hret : bdj_open cfg o path bd registers index osd_cb buf w = Res.ret p w2)
    (hp : p ≠ 0) :
    ∃ s : BDJAVA, w2.heap p = some { data := s, live := true } ∧
      s.jvm = o.create_jvm ∧ s.h_libjvm ≠ 0 ∧ s.path = path := by
  by_cases hh : load_jvm_handle cfg o = 0
  · rw [bdj_open_no_library cfg o path bd registers index osd_cb buf w hh] at hret
    injection hret with h0 _
    exact absurd h0.symm hp
  by_cases hs : o.dl_dlsym (load_jvm_handle cfg o) "JNI_CreateJavaVM" = 0
  · rw [bdj_open_no_symbol cfg o path bd registers index osd_cb buf w hh hs] at hret
    injection hret with h0 _
    exact absurd h0.symm hp
  by_cases hc : o.calloc = 0
  · have hcrash := bdj_open_no_memory cfg o path bd registers index osd_cb buf w hh hs hc
    rw [hret] at hcrash
    simp [Res.value] at hcrash
  by_cases hr : o.create_result ≠ JNI_OK ∨ o.create_env = 0
  · rw [bdj_open_create_failed cfg o path bd registers index osd_cb buf w hh hs hc hr] at hret
    injection hret with h0 _
    exact absurd h0.symm hp
  have hr1 : o.create_result = JNI_OK := by
    by_contra hne
    exact hr (Or.inl hne)
  have he1 : o.create_env ≠ 0 := by
    intro he
    exact hr (Or.inr he)
  rw [bdj_open_created cfg o path bd registers index osd_cb buf w hh hs hc hr1 he1] at hret
  by_cases hf : o.bdj_get_method "org/videolan/Libbluray" "init" "(JLjava/lang/String;)V" = 0
  · rw [if_pos hf] at hret
    injection hret with h0 _
    exact absurd h0.symm hp
  · rw [if_neg hf] at hret
    injection hret with hpe hw
    subst hpe
    subst hw
    exact ⟨opened_record cfg o path bd registers index osd_cb buf,
      by simp [init_world, created_world], rfl, hh, rfl⟩

theorem filter_stat_events (f : Effect → Bool) (hstat : ∀ c, f (Effect.stat c) = false)
    (o : Oracle) (l : List String) : (stat_events o l).filter f = [] := by
  induction l with
  | nil => simp [stat_events]
  | cons c rest ih =>
    by_cases hp : o.stat c = 0 <;> simp [stat_events, hp, hstat, ih]

theorem filter_resolve_events (f : Effect → Bool) (hstat : ∀ c, f (Effect.stat c) = false)
    (henv : ∀ n, f (Effect.getenv n) = false)
    (cfg : Config) (o : Oracle) (cached : Option CStr) :
    (resolve_events cfg o cached).filter f = [] := by
  cases cached with
  | some c => simp [resolve_events]
  | none =>
    cases he : o.getenv "LIBBLURAY_CP" <;>
    simp [resolve_events, he, henv, filter_stat_events f hstat]

theorem filter_load_jvm_events (f : Effect → Bool) (hopen : ∀ c, f (Effect.dl_dlopen c) = false)
    (henv : ∀ n, f (Effect.getenv n) = false)
    (cfg : Config) (o : Oracle) :
    (load_jvm_events cfg o).filter f = [] := by
  cases he : o.getenv "JAVA_HOME" with
  | some r => simp [load_jvm_events, he, henv, hopen]
  | none =>
    by_cases hh : o.dl_dlopen "libjvm" = 0 <;> simp [load_jvm_events, he, hh, henv, hopen]

theorem resource_steps_close_events (o : Oracle) (s : BDJAVA) (pending : Bool) (p : Nat) :
    resource_steps (close_events o s pending p) =
      (if s.jvm ≠ 0 then [Effect.DestroyJavaVM s.jvm] else []) ++
      (if s.h_libjvm ≠ 0 then [Effect.dl_dlclose s.h_libjvm] else []) ++
      [Effect.free p] := by
  simp only [close_events, attach_events, invoke_events, detach_events, resource_steps]
  split_ifs <;> simp_all

theorem resource_steps_init_events (o : Oracle) (s : BDJAVA) (p : Nat) (pending : Bool) :
    resource_steps (init_events o s p pending) = [] := by
  simp only [init_events, resource_steps]
  split_ifs <;> simp_all

theorem resource_steps_append (a b : List Effect) :
    resource_steps (a ++ b) = resource_steps a ++ resource_steps b := by
  simp [resource_steps]

/-- C1: when `bdj_open` returns `NULL`, then (a) if the library load failed,
the world is the one `_load_jvm` left: nothing was looked up, allocated,
created or closed; (b) if the library was loaded with handle `h`, the
resource steps after the load are, when the symbol is missing, the lookup and
one `dl_dlclose` of `h`, and otherwise the lookup, the allocation of the
session record, the VM creation, one `DestroyJavaVM` of the VM handle that
creation stored (when it stored one), then one `dl_dlclose` of `h`, then one
`free` of the session record. -/
theorem bdj_open_failure_releases (cfg : Config) (o : Oracle) (path : String)
    (bd registers index osd_cb buf : Nat) (w : World) (h : Nat) (w1 w2 : World)
    (hload : _load_jvm cfg o w = Res.ret h w1)
    (hnull : bdj_open cfg o path bd registers index osd_cb buf w = Res.ret 0 w2) :
    (h = 0 → w2 = w1) ∧
    (h ≠ 0 → o.dl_dlsym h "JNI_CreateJavaVM" = 0 →
      resource_steps (new_events w1 (bdj_open cfg o path bd registers index osd_cb buf w)) =
        [Effect.dl_dlsym h "JNI_CreateJavaVM", Effect.dl_dlclose h]) ∧
    (h ≠ 0 → o.dl_dlsym h "JNI_CreateJavaVM" ≠ 0 →
      ∃ options : List String,
        resource_steps
            (new_events w1 (bdj_open cfg o path bd registers index osd_cb buf w)) =
          [Effect.dl_dlsym h "JNI_CreateJavaVM", Effect.calloc o.calloc,
           Effect.JNI_CreateJavaVM (o.dl_dlsym h "JNI_CreateJavaVM") options false] ++
          (if o.create_jvm ≠ 0 then [Effect.DestroyJavaVM o.create_jvm] else []) ++
          [Effect.dl_dlclose h, Effect.free o.calloc]) := by
  rw [load_jvm_run] at hload
  injection hload with hh hw1
  subst hh
  subst hw1
  have hres : ∀ c, resource_steps (resolve_events cfg o c) = [] :=
    filter_resolve_events _ (fun _ => rfl) (fun _ => rfl) cfg o
  refine ⟨?_, ?_, ?_⟩
  · intro h0
    rw [bdj_open_no_library cfg o path bd registers index osd_cb buf w h0] at hnull
    injection hnull with _ hw
    exact hw.symm
  · intro h0 hs
    rw [bdj_open_no_symbol cfg o path bd registers index osd_cb buf w h0 hs]
    rw [new_events_ret _ _ _
      [Effect.dl_dlsym (load_jvm_handle cfg o) "JNI_CreateJavaVM",
       Effect.dl_dlclose (load_jvm_handle cfg o)] (by simp)]
    simp [resource_steps]
  · intro h0 hs
    by_cases hc : o.calloc = 0
    · have hcrash := bdj_open_no_memory cfg o path bd registers index osd_cb buf w h0 hs hc
      rw [hnull] at hcrash
      simp [Res.value] at hcrash
    · refine ⟨["-Xbootclasspath/a:" ++ resolved_jar cfg o w.classpath,
        "-Dbluray.vfs.root=" ++ path], ?_⟩
      by_cases hr : o.create_result ≠ JNI_OK ∨ o.create_env = 0
      · rw [bdj_open_create_failed cfg o path bd registers index osd_cb buf w h0 hs hc hr]
        rw [new_events_ret _ _ _
          ([Effect.dl_dlsym (load_jvm_handle cfg o) "JNI_CreateJavaVM",
            Effect.calloc o.calloc] ++ resolve_events cfg o w.classpath ++
           [Effect.JNI_CreateJavaVM (o.dl_dlsym (load_jvm_handle cfg o) "JNI_CreateJavaVM")
             ["-Xbootclasspath/a:" ++ resolved_jar cfg o w.classpath,
              "-Dbluray.vfs.root=" ++ path] false] ++
           close_events o (opened_record cfg o path bd registers index osd_cb buf) w.pending
             o.calloc)
          (by simp [close_world, created_world, create_events])]
        simp only [resource_steps_append, resource_steps_close_events, hres]
        simp [resource_steps, opened_record, h0]
      · have hr1 : o.create_result = JNI_OK := by
          by_contra hne
          exact hr (Or.inl hne)
        have he1 : o.create_env ≠ 0 := by
          intro he
          exact hr (Or.inr he)
        have hrun := bdj_open_created cfg o path bd registers index osd_cb buf w h0 hs hc hr1 he1
        by_cases hf :
            o.bdj_get_method "org/videolan/Libbluray" "init" "(JLjava/lang/String;)V" = 0
        · rw [if_pos hf] at hrun
          rw [hrun]
          rw [new_events_ret _ _ _
            ([Effect.dl_dlsym (load_jvm_handle cfg o) "JNI_CreateJavaVM",
              Effect.calloc o.calloc] ++ resolve_events cfg o w.classpath ++
             [Effect.JNI_CreateJavaVM (o.dl_dlsym (load_jvm_handle cfg o) "JNI_CreateJavaVM")
               ["-Xbootclasspath/a:" ++ resolved_jar cfg o w.classpath,
                "-Dbluray.vfs.root=" ++ path] false] ++
             init_events o (opened_record cfg o path bd registers index osd_cb buf) o.calloc
               w.pending ++
             close_events o (opened_record cfg o path bd registers index osd_cb buf)
               (init_world o o.calloc (opened_record cfg o path bd registers index osd_cb buf)
                 (created_world cfg o path bd registers index osd_cb buf w)).pending
               o.calloc)
            (by simp [close_world, init_world, created_world, create_events])]
          simp only [resource_steps_append, resource_steps_close_events, hres,
            resource_steps_init_events]
          simp [resource_steps, opened_record, h0]
        · rw [if_neg hf] at hrun
          rw [hrun] at hnull
          injection hnull with hz _
          exact absurd hz hc

/-- Witness for C1: the library loads, the VM is created, `init` does not
resolve: `bdj_open` returns `NULL` after destroying the VM, closing the
library and freeing the record, in that order. -/
theorem bdj_open_failure_releases_witness :
    (_load_jvm sample_config no_init_oracle empty_world =
        Res.ret 9 (_load_jvm sample_config no_init_oracle empty_world).world ∧
      bdj_open sample_config no_init_oracle "/media/disc" 1 2 3 4 5 empty_world =
        Res.ret 0
          (bdj_open sample_config no_init_oracle "/media/disc" 1 2 3 4 5 empty_world).world) ∧
    ∃ options : List String,
      resource_steps
          (new_events (_load_jvm sample_config no_init_oracle empty_world).world
            (bdj_open sample_config no_init_oracle "/media/disc" 1 2 3 4 5 empty_world)) =
        [Effect.dl_dlsym 9 "JNI_CreateJavaVM", Effect.calloc 4096,
         Effect.JNI_CreateJavaVM 11 options false, Effect.DestroyJavaVM 7,
         Effect.dl_dlclose 9, Effect.free 4096] :=
  ⟨⟨rfl, rfl⟩,
   (bdj_open_failure_releases sample_config no_init_oracle "/media/disc" 1 2 3 4 5 empty_world
     9 _ _ rfl rfl).2.2 (by decide) (by decide)⟩

theorem hosted_calls_append (a b : List Effect) :
    hosted_calls (a ++ b) = hosted_calls a ++ hosted_calls b := by
  simp [hosted_calls]

theorem hosted_calls_create_events (cfg : Config) (o : Oracle) (path : String)
    (cached : Option CStr) : hosted_calls (create_events cfg o path cached) = [] := by
  have h1 : hosted_calls (load_jvm_events cfg o) = [] :=
    filter_load_jvm_events _ (fun _ => rfl) (fun _ => rfl) cfg o
  have h2 : hosted_calls (resolve_events cfg o cached) = [] :=
    filter_resolve_events _ (fun _ => rfl) (fun _ => rfl) cfg o cached
  simp only [create_events, hosted_calls_append, h1, h2]
  simp [hosted_calls]

theorem hosted_calls_init_events (o : Oracle) (s : BDJAVA) (p : Nat) (pending : Bool)
    (hf : o.bdj_get_method "org/videolan/Libbluray" "init" "(JLjava/lang/String;)V" ≠ 0) :
    hosted_calls (init_events o s p pending) =
      [Effect.CallStaticMethod "org/videolan/Libbluray" "init" "(JLjava/lang/String;)V"
        [JArg.jlong (Int.ofNat p), JArg.jstring (init_disc_id o s.path)]] := by
  simp only [init_events, hosted_calls]
  split_ifs <;> simp_all

theorem parse_calls_init_events (o : Oracle) (s : BDJAVA) (p : Nat) (pending : Bool)
    (hf : o.bdj_get_method "org/videolan/Libbluray" "init" "(JLjava/lang/String;)V" ≠ 0) :
    parse_calls (init_events o s p pending) =
      [Effect.bdid_parse (s.path ++ "/CERTIFICATE/id.bdmv")] := by
  simp only [init_events, parse_calls]
  split_ifs <;> simp_all

theorem bdj_open_reaches_create (cfg : Config) (o : Oracle) (path : String)
    (bd registers index osd_cb buf : Nat) (w : World)
    (hh : load_jvm_handle cfg o ≠ 0)
    (hs : o.dl_dlsym (load_jvm_handle cfg o) "JNI_CreateJavaVM" ≠ 0)
    (hc : o.calloc ≠ 0) :
    ∃ es, new_events w (bdj_open cfg o path bd registers index osd_cb buf w) =
      create_events cfg o path w.classpath ++ es := by
  by_cases hr : o.create_result ≠ JNI_OK ∨ o.create_env = 0
  · rw [bdj_open_create_failed cfg o path bd registers index osd_cb buf w hh hs hc hr]
    exact ⟨_, new_events_ret _ _ _ _ (by
      simp only [close_world, created_world, List.append_assoc]
      rfl)⟩
  · have hr1 : o.create_result = JNI_OK := by
      by_contra hne
      exact hr (Or.inl hne)
    have he1 : o.create_env ≠ 0 := by
      intro he
      exact hr (Or.inr he)
    rw [bdj_open_created cfg o path bd registers index osd_cb buf w hh hs hc hr1 he1]
    by_cases hf : o.bdj_get_method "org/videolan/Libbluray" "init" "(JLjava/lang/String;)V" = 0
    · rw [if_pos hf]
      exact ⟨_, new_events_ret _ _ _ _ (by
        simp only [close_world, init_world, created_world, List.append_assoc]
        rfl)⟩
    · rw [if_neg hf]
      exact ⟨_, new_events_ret _ _ _ _ (by
        simp only [init_world, created_world, List.append_assoc]
        rfl)⟩

/-- C7: on a first call (nothing cached), `_find_libbluray_jar` returns the
pointer `getenv` gave for `LIBBLURAY_CP` when the variable is set, behind
which the path is the value of the variable as it is, after reading the
variable and without a single `stat`; otherwise the first entry of
`jar_paths`, in list order, that `stat` accepts; otherwise `BDJ_CLASSPATH`.
It always returns a path, never `NULL`, and once the library is loaded, the
symbol found and the record allocated, `bdj_open` calls `JNI_CreateJavaVM`
with the boot-classpath option built from that path. -/
theorem find_libbluray_jar_first_call (cfg : Config) (o : Oracle) (w : World)
    (hfirst : w.classpath = none) :
    (∀ v, o.getenv "LIBBLURAY_CP" = some v →
      ∃ a, o.getenv_addr "LIBBLURAY_CP" = some a ∧
        _find_libbluray_jar cfg o w =
          Res.ret (some (CStr.environ a))
            { w with
              classpath := some (CStr.environ a)
              trace := w.trace ++ [Effect.getenv "LIBBLURAY_CP"] } ∧
        returned_text o (_find_libbluray_jar cfg o w) = some v) ∧
    (o.getenv "LIBBLURAY_CP" = none →
      ∀ c, (jar_paths cfg).find? (fun c => decide (o.stat c = 0)) = some c →
        (_find_libbluray_jar cfg o w).value = some (some (CStr.literal c)) ∧
        returned_text o (_find_libbluray_jar cfg o w) = some c) ∧
    (o.getenv "LIBBLURAY_CP" = none → (∀ c ∈ jar_paths cfg, o.stat c ≠ 0) →
      (_find_libbluray_jar cfg o w).value = some (some (CStr.literal cfg.BDJ_CLASSPATH)) ∧
      returned_text o (_find_libbluray_jar cfg o w) = some cfg.BDJ_CLASSPATH) ∧
    (∃ c, (_find_libbluray_jar cfg o w).value = some (some c)) ∧
    (∀ (path : String) (bd registers index osd_cb buf h : Nat) (w1 : World) (c : String),
      _load_jvm cfg o w = Res.ret h w1 → h ≠ 0 → o.dl_dlsym h "JNI_CreateJavaVM" ≠ 0 →
      o.calloc ≠ 0 → returned_text o (_find_libbluray_jar cfg o w) = some c →
      Effect.JNI_CreateJavaVM (o.dl_dlsym h "JNI_CreateJavaVM")
          ["-Xbootclasspath/a:" ++ c, "-Dbluray.vfs.root=" ++ path] false ∈
        new_events w (bdj_open cfg o path bd registers index osd_cb buf w)) := by
  have haddr_none : o.getenv "LIBBLURAY_CP" = none → o.getenv_addr "LIBBLURAY_CP" = none := by
    intro henv
    cases h : o.getenv_addr "LIBBLURAY_CP" with
    | none => rfl
    | some a =>
      rw [getenv_of_addr_some o "LIBBLURAY_CP" a h] at henv
      exact absurd henv (by simp)
  refine ⟨?_, ?_, ?_, ?_, ?_⟩
  · intro v hv
    cases ha : o.getenv_addr "LIBBLURAY_CP" with
    | none =>
      rw [getenv_of_addr_none o "LIBBLURAY_CP" ha] at hv
      exact absurd hv (by simp)
    | some a =>
      have hv2 := hv
      rw [getenv_of_addr_some o "LIBBLURAY_CP" a ha] at hv2
      injection hv2 with htext
      refine ⟨a, rfl, ?_, ?_⟩
      · rw [find_libbluray_jar_run]
        simp [hfirst, resolved_ptr, resolve_events, hv, ha]
      · rw [find_libbluray_jar_run]
        simp [returned_text, text_of, hfirst, resolved_ptr, ha, htext]
  · intro hn c hc
    have ha := haddr_none hn
    rw [find_libbluray_jar_run]
    simp [Res.value, returned_text, text_of, hfirst, resolved_ptr, ha, hc]
  · intro hn hall
    have ha := haddr_none hn
    have hnone : (jar_paths cfg).find? (fun c => decide (o.stat c = 0)) = none := by
      rw [List.find?_eq_none]
      intro c hc
      simpa using hall c hc
    rw [find_libbluray_jar_run]
    simp [Res.value, returned_text, text_of, hfirst, resolved_ptr, ha, hnone]
  · rw [find_libbluray_jar_run]
    exact ⟨_, rfl⟩
  · intro path bd registers index osd_cb buf h w1 c hload hh hs hc hval
    rw [load_jvm_run] at hload
    injection hload with hh1 _
    subst hh1
    rw [find_libbluray_jar_run] at hval
    simp only [returned_text, Option.some.injEq] at hval
    obtain ⟨es, hes⟩ := bdj_open_reaches_create cfg o path bd registers index osd_cb buf w hh hs hc
    rw [hes, ← hval]
    simp [create_events, resolved_jar]

/-- Witness for C7: nothing cached, no variable set, no candidate present. -/
theorem find_libbluray_jar_first_call_witness :
    empty_world.classpath = none ∧
    returned_text bare_oracle (_find_libbluray_jar sample_config bare_oracle empty_world) =
      some "/usr/share/java/libbluray.jar" :=
  ⟨rfl,
   ((find_libbluray_jar_first_call sample_config bare_oracle empty_world rfl).2.2.1 rfl
     (by decide)).2⟩

/-- C8: when the `init` entry point resolves, `_bdj_init` on a live session
parses exactly `path/CERTIFICATE/id.bdmv`, calls `init` once with the session's
address and with the parsed `disc_id`, or with the fallback of thirty-two `0`
characters when parsing fails, clears any fault and returns `1` whether or not
the call faulted; `bdj_open`, once the VM is created, then returns the
session. -/
theorem bdj_init_disc_id (o : Oracle) (p : Nat) (s : BDJAVA) (w : World)
    (hp : p ≠ 0) (hlive : w.heap p = some { data := s, live := true })
    (hfound : o.bdj_get_method "org/videolan/Libbluray" "init" "(JLjava/lang/String;)V" ≠ 0) :
    (_bdj_init o p w).value = some 1 ∧
    parse_calls (new_events w (_bdj_init o p w)) =
      [Effect.bdid_parse (s.path ++ "/CERTIFICATE/id.bdmv")] ∧
    hosted_calls (new_events w (_bdj_init o p w)) =
      [Effect.CallStaticMethod "org/videolan/Libbluray" "init" "(JLjava/lang/String;)V"
        [JArg.jlong (Int.ofNat p),
         JArg.jstring
          (match o.bdid_parse (s.path ++ "/CERTIFICATE/id.bdmv") with
            | some d => d.disc_id
            | none => fallback_disc_id)]] ∧
    fallback_disc_id.data = List.replicate 32 '0' ∧
    (_bdj_init o p w).world.pending = false ∧
    (∀ (cfg : Config) (path : String) (bd registers index osd_cb buf h : Nat) (w0 w1 : World),
      _load_jvm cfg o w0 = Res.ret h w1 → h ≠ 0 → o.dl_dlsym h "JNI_CreateJavaVM" ≠ 0 →
      o.calloc ≠ 0 → o.create_result = JNI_OK → o.create_env ≠ 0 →
      (bdj_open cfg o path bd registers index osd_cb buf w0).value = some o.calloc ∧
      hosted_calls (new_events w0 (bdj_open cfg o path bd registers index osd_cb buf w0)) =
        [Effect.CallStaticMethod "org/videolan/Libbluray" "init" "(JLjava/lang/String;)V"
          [JArg.jlong (Int.ofNat o.calloc),
           JArg.jstring
            (match o.bdid_parse (path ++ "/CERTIFICATE/id.bdmv") with
              | some d => d.disc_id
              | none => fallback_disc_id)]]) := by
  have hev : new_events w (_bdj_init o p w) = init_events o s p w.pending := by
    rw [bdj_init_run o p s w hp hlive]
    exact new_events_ret _ _ _ _ (by simp [init_world])
  refine ⟨?_, ?_, ?_, ?_, ?_, ?_⟩
  · rw [bdj_init_run o p s w hp hlive]
    simp [Res.value, hfound]
  · rw [hev, parse_calls_init_events o s p w.pending hfound]
  · rw [hev, hosted_calls_init_events o s p w.pending hfound]
    rfl
  · decide
  · rw [bdj_init_run o p s w hp hlive]
    simp [Res.world, init_world, hfound]
  · intro cfg path bd registers index osd_cb buf h w0 w1 hload hh hs hc hr he
    rw [load_jvm_run] at hload
    injection hload with hh1 _
    subst hh1
    rw [bdj_open_created cfg o path bd registers index osd_cb buf w0 hh hs hc hr he,
      if_neg hfound]
    refine ⟨rfl, ?_⟩
    rw [new_events_ret _ _ _
      (create_events cfg o path w0.classpath ++
        init_events o (opened_record cfg o path bd registers index osd_cb buf) o.calloc
          w0.pending)
      (by simp [init_world, created_world])]
    rw [hosted_calls_append, hosted_calls_create_events, hosted_calls_init_events _ _ _ _ hfound]
    rfl

/-- Witness for C8: the spec's scenario, `open("/media/disc", …)` with an
`id.bdmv` that yields `ABCDEF0123456789ABCDEF0123456789`, and `init` faulting. -/
theorem bdj_init_disc_id_witness :
    (4096 ≠ 0 ∧ session_world.heap 4096 = some { data := sample_session, live := true } ∧
      ready_oracle.bdj_get_method "org/videolan/Libbluray" "init" "(JLjava/lang/String;)V"
        ≠ 0) ∧
    ready_oracle.throws "init" = true ∧
    (bdj_open sample_config ready_oracle "/media/disc" 1 2 3 4 5 empty_world).value =
      some 4096 ∧
    hosted_calls
        (new_events empty_world
          (bdj_open sample_config ready_oracle "/media/disc" 1 2 3 4 5 empty_world)) =
      [Effect.CallStaticMethod "org/videolan/Libbluray" "init" "(JLjava/lang/String;)V"
        [JArg.jlong 4096, JArg.jstring "ABCDEF0123456789ABCDEF0123456789"]] :=
  ⟨⟨by decide, rfl, by decide⟩, rfl,
   (bdj_init_disc_id ready_oracle 4096 sample_session session_world (by decide) rfl
     (by decide)).2.2.2.2.2 sample_config "/media/disc" 1 2 3 4 5 9 empty_world _ rfl
     (by decide) (by decide) (by decide) rfl (by decide)⟩

end Bdj
